import Mathlib

/-!
Verification of the coalescing state machine of apollo-link-debounce
(src/src/DebounceLink.ts), as a shallow embedding.

Modelling conventions:
* Observers are identified by natural-number ids; a delivered callback
  invocation is recorded as an `Effect`.
* An `Operation` together with its `NextLink` (`lastRequest` in the source)
  is a `Request` record of two opaque ids.
* JavaScript objects used as string- or integer-keyed dictionaries become
  association lists with `alookup` / `aset` / `aerase`; the program never
  observes key order (only membership and emptiness), so `aset` may place
  the updated binding at the front.
* `setTimeout` returns a fresh handle from a counter and arms a `Timer`;
  `clearTimeout` disarms by handle; a timer that fires is disarmed by the
  scheduler before its callback (`flush`) runs.  `setTimeout`'s delay
  argument (`debounceTimeout || this.defaultDelay`) is kept on the timer.
* `forward(operation).subscribe(...)` in `flush` is the downstream call: it
  is recorded as an `Effect.fwd` and allocates a fresh subscription id from
  a counter; `subscription.unsubscribe()` is `Effect.cancelSub`.
* The handlers attached in `flush` close over the array `currentObservers`.
  `unsubscribe` later *reassigns* `runningSubscriptions[g].observers` to a
  filtered copy, which does not change the closure's capture, so the
  running record carries both the mutable field `observers` and the
  closure capture `snapshot` (both equal to `currentObservers` at flush).
* A function that would throw a TypeError (reading a property of
  `undefined`) returns `none`.
-/

/-- The payload of a submission: the pair `{ operation, forward }` that the
source stores in `dbi.lastRequest` and hands to the downstream executor at
flush time.  Both components are opaque ids. -/
structure Request where
  operation : Nat
  forward : Nat
deriving DecidableEq, Repr

/-- One entry of `runningSubscriptions`: the record
`{ observers, subscription }` stored under a flushed group id.
`snapshot` is the array captured by the `next`/`error`/`complete` closures
attached in `flush`; it equals `observers` when the entry is created and is
never reassigned afterwards, while `observers` is replaced by a filtered
copy in `unsubscribe`. -/
structure RunningSub where
  observers : List Nat
  subscription : Nat
  snapshot : List Nat
deriving DecidableEq, Repr

/-- `DebounceMetadata` from the source: the per-key group record. -/
structure DebounceMetadata where
  timeout : Option Nat
  runningSubscriptions : List (Nat × RunningSub)
  queuedObservers : List Nat
  currentGroupId : Nat
  lastRequest : Option Request
deriving DecidableEq, Repr

/-- An armed `setTimeout` whose callback is `flush key`, with its handle
and the delay it was scheduled with. -/
structure Timer where
  id : Nat
  key : String
  delay : Nat
deriving DecidableEq, Repr

/-- The whole state of a `DebounceLink` instance together with the host
timer queue and the id counters for timer handles, downstream
subscriptions, and the set of live direct (bypass) subscriptions. -/
structure DState where
  debounceInfo : List (String × DebounceMetadata)
  armed : List Timer
  nextTimerId : Nat
  nextSubId : Nat
  activeDirect : List Nat
  defaultDelay : Nat
deriving DecidableEq, Repr

/-- Externally observable actions. -/
inductive Effect where
  | fwd (key : String) (req : Request) (subId : Nat)
  | fwdDirect (req : Request) (subId : Nat)
  | cancelSub (subId : Nat)
  | next (obs : Nat) (v : Nat)
  | error (obs : Nat) (e : Nat)
  | complete (obs : Nat)
deriving DecidableEq, Repr

/-- Dictionary lookup (`obj[k]`). -/
def alookup {α β : Type} [DecidableEq α] : List (α × β) → α → Option β
  | [], _ => none
  | p :: rest, k => if p.1 = k then some p.2 else alookup rest k

/-- Dictionary deletion (`delete obj[k]`). -/
def aerase {α β : Type} [DecidableEq α] : List (α × β) → α → List (α × β)
  | [], _ => []
  | p :: rest, k => if p.1 = k then aerase rest k else p :: aerase rest k

/-- Dictionary update (`obj[k] = v`).  Key order is unobservable in the
source, so the binding is placed at the front. -/
def aset {α β : Type} [DecidableEq α] (m : List (α × β)) (k : α) (v : β) :
    List (α × β) :=
  (k, v) :: aerase m k

/-- `clearTimeout h`: disarm the timer with the given handle; a no-op on
`undefined` or on a handle that is stale (already fired or cleared). -/
def clearTimer (armed : List Timer) : Option Nat → List Timer
  | none => armed
  | some t => armed.filter (fun tm => tm.id ≠ t)

/-- The record built by `setupDebounceInfo` (before it is stored). -/
def freshMetadata : DebounceMetadata where
  timeout := none
  runningSubscriptions := []
  queuedObservers := []
  currentGroupId := 0
  lastRequest := none

/-- The delay chosen for the new timer: `debounceTimeout || this.defaultDelay`
(an absent or zero override is falsy and falls back to the default). -/
def delayOf (debounceTimeout : Option Nat) (defaultDelay : Nat) : Nat :=
  match debounceTimeout with
  | some t => if t ≠ 0 then t else defaultDelay
  | none => defaultDelay

/-- `enqueueRequest` from the source: look up or create the group record,
push the observer, overwrite `lastRequest`, clear any armed timer, arm a
new one with delay `debounceTimeout || this.defaultDelay`, and return the
group id that is current at call time. -/
def enqueueRequest (s : DState) (debounceKey : String)
    (debounceTimeout : Option Nat) (req : Request) (obs : Nat) :
    DState × Nat :=
  let dbi := (alookup s.debounceInfo debounceKey).getD freshMetadata
  let queued := dbi.queuedObservers ++ [obs]
  let armed1 :=
    if dbi.timeout.isSome then clearTimer s.armed dbi.timeout else s.armed
  let tid := s.nextTimerId
  let delayMs := delayOf debounceTimeout s.defaultDelay
  let dbi1 : DebounceMetadata :=
    { dbi with
        queuedObservers := queued
        lastRequest := some req
        timeout := some tid }
  ({ s with
      debounceInfo := aset s.debounceInfo debounceKey dbi1
      armed := armed1 ++ [⟨tid, debounceKey, delayMs⟩]
      nextTimerId := tid + 1 },
   dbi.currentGroupId)

/-- `cleanup` from the source: delete `runningSubscriptions[groupId]`,
clear the timer if `groupId` is the current group, and delete the whole
group record when both collections are empty. -/
def cleanup (s : DState) (debounceKey : String) (groupId : Nat) : DState :=
  match alookup s.debounceInfo debounceKey with
  | none => s
  | some dbi =>
    let rs := aerase dbi.runningSubscriptions groupId
    let armed1 :=
      if groupId = dbi.currentGroupId then clearTimer s.armed dbi.timeout
      else s.armed
    if rs.isEmpty && dbi.queuedObservers.isEmpty then
      { s with
          debounceInfo := aerase s.debounceInfo debounceKey
          armed := armed1 }
    else
      { s with
          debounceInfo :=
            aset s.debounceInfo debounceKey { dbi with runningSubscriptions := rs }
          armed := armed1 }

/-- `flush` from the source.  Reading `dbi.queuedObservers` when the group
record is absent throws a TypeError, rendered as `none`.  Otherwise, on the
guard path (`queuedObservers` empty or `lastRequest` unset) nothing
happens; on the main path the downstream call is made with `lastRequest`,
its cancel handle and the observer snapshot are stored under the current
group id, the queue is emptied and the group id incremented.  Note that
the source does not touch `dbi.timeout` here. -/
def flush (s : DState) (debounceKey : String) :
    Option (DState × List Effect) :=
  match alookup s.debounceInfo debounceKey with
  | none => none
  | some dbi =>
    if dbi.queuedObservers.isEmpty || dbi.lastRequest.isNone then
      some (s, [])
    else
      match dbi.lastRequest with
      | none => some (s, [])
      | some req =>
        let currentObservers := dbi.queuedObservers
        let groupId := dbi.currentGroupId
        let subId := s.nextSubId
        let entry : RunningSub :=
          { observers := currentObservers
            subscription := subId
            snapshot := currentObservers }
        let dbi1 : DebounceMetadata :=
          { dbi with
              runningSubscriptions :=
                aset dbi.runningSubscriptions groupId entry
              queuedObservers := []
              currentGroupId := groupId + 1 }
        some
          ({ s with
              debounceInfo := aset s.debounceInfo debounceKey dbi1
              nextSubId := subId + 1 },
           [Effect.fwd debounceKey req subId])

/-- The `next` handler attached in `flush`: fan the value out to every
observer captured at flush time, in snapshot order. -/
def onNext (snapshot : List Nat) (v : Nat) : List Effect :=
  snapshot.map (fun o => Effect.next o v)

/-- The `error` handler attached in `flush`: fan the error out, then run
`cleanup`. -/
def onError (s : DState) (debounceKey : String) (groupId : Nat)
    (snapshot : List Nat) (e : Nat) : DState × List Effect :=
  (cleanup s debounceKey groupId, snapshot.map (fun o => Effect.error o e))

/-- The `complete` handler attached in `flush`: fan completion out, then
run `cleanup`. -/
def onComplete (s : DState) (debounceKey : String) (groupId : Nat)
    (snapshot : List Nat) : DState × List Effect :=
  (cleanup s debounceKey groupId, snapshot.map (fun o => Effect.complete o))

/-- `unsubscribe` from the source, the cancellation path of the handle
returned by `request`.  If the group is gone, a no-op.  For the live
group, filter the observer out of the queue and clean up when the queue
empties.  For a flushed group, filter it out of that generation's observer
set; when the set empties, call the downstream cancel handle and clean
up. -/
def unsubscribe (s : DState) (debounceKey : String) (debounceGroupId : Nat)
    (obs : Nat) : DState × List Effect :=
  match alookup s.debounceInfo debounceKey with
  | none => (s, [])
  | some dbi =>
    if debounceGroupId = dbi.currentGroupId then
      let queued := dbi.queuedObservers.filter (fun o => o ≠ obs)
      let s1 :=
        { s with
            debounceInfo :=
              aset s.debounceInfo debounceKey { dbi with queuedObservers := queued } }
      if queued.isEmpty then (cleanup s1 debounceKey debounceGroupId, [])
      else (s1, [])
    else
      match alookup dbi.runningSubscriptions debounceGroupId with
      | none => (s, [])
      | some observerGroup =>
        let obs1 := observerGroup.observers.filter (fun o => o ≠ obs)
        let s1 :=
          { s with
              debounceInfo :=
                aset s.debounceInfo debounceKey
                  { dbi with
                      runningSubscriptions :=
                        aset dbi.runningSubscriptions debounceGroupId
                          { observerGroup with observers := obs1 } } }
        if obs1.isEmpty then
          (cleanup s1 debounceKey debounceGroupId,
           [Effect.cancelSub observerGroup.subscription])
        else (s1, [])

/-- The cancellation handle returned by `request`: either the direct
downstream subscription of a bypassed request, or the
`(key, groupId, observer)` triple captured for a debounced one. -/
inductive Handle where
  | direct (subId : Nat)
  | grouped (key : String) (groupId : Nat) (obs : Nat)
deriving DecidableEq, Repr

/-- JavaScript truthiness of the `debounceKey` context value:
`!debounceKey` holds when the key is absent or the empty string. -/
def keyFalsy : Option String → Bool
  | none => true
  | some k => k = ""

/-- `request` from the source (combined with the single subscription the
caller makes to the returned observable).  Without a truthy key the
operation is forwarded immediately and the handle proxies that direct
call's cancellation; otherwise the request is enqueued and the handle
captures the key, the group id current at call time, and the observer. -/
def request (s : DState) (debounceKey : Option String)
    (debounceTimeout : Option Nat) (req : Request) (obs : Nat) :
    DState × List Effect × Handle :=
  if keyFalsy debounceKey then
    let subId := s.nextSubId
    ({ s with
        nextSubId := subId + 1
        activeDirect := s.activeDirect ++ [subId] },
     [Effect.fwdDirect req subId], Handle.direct subId)
  else
    match debounceKey with
    | none => (s, [], Handle.direct 0)
    | some k =>
      let (s1, gid) := enqueueRequest s k debounceTimeout req obs
      (s1, [], Handle.grouped k gid obs)

/-- Invoking `cancel()` on a handle.  For a direct handle the host
subscription runs its teardown at most once (zen-observable closes the
subscription), cancelling the downstream call; for a grouped handle the
teardown is `unsubscribe`. -/
def cancelHandle (s : DState) : Handle → DState × List Effect
  | Handle.direct subId =>
    if subId ∈ s.activeDirect then
      ({ s with activeDirect := s.activeDirect.filter (fun i => i ≠ subId) },
       [Effect.cancelSub subId])
    else (s, [])
  | Handle.grouped k g o => unsubscribe s k g o

/-- Discrete events driving the state machine: a call to `request`, a
timer firing, a downstream data/error/completion event for a flushed
generation, and a cancellation through a grouped handle. -/
inductive Ev where
  | submit (key : Option String) (debounceTimeout : Option Nat)
      (req : Request) (obs : Nat)
  | fire (tid : Nat)
  | dnext (key : String) (g : Nat) (v : Nat)
  | derror (key : String) (g : Nat) (e : Nat)
  | dcomplete (key : String) (g : Nat)
  | cancelG (key : String) (g : Nat) (obs : Nat)
deriving DecidableEq, Repr

/-- One event step.  `fire tid` runs `flush` for the timer's key after
disarming it; a cleared timer never fires, so an unknown handle is a
no-op.  Downstream events reach the handlers only while the downstream
call is live, i.e. while its `runningSubscriptions` entry exists; the
handlers fan out to the flush-time `snapshot`.  `none` models a thrown
TypeError. -/
def step (s : DState) : Ev → Option (DState × List Effect)
  | Ev.submit key dt req obs =>
    let r := request s key dt req obs
    some (r.1, r.2.1)
  | Ev.fire tid =>
    match s.armed.find? (fun tm => tm.id = tid) with
    | none => some (s, [])
    | some tm =>
      flush { s with armed := s.armed.filter (fun x => x.id ≠ tid) } tm.key
  | Ev.dnext k g v =>
    match alookup s.debounceInfo k with
    | none => some (s, [])
    | some dbi =>
      match alookup dbi.runningSubscriptions g with
      | none => some (s, [])
      | some rsub => some (s, onNext rsub.snapshot v)
  | Ev.derror k g e =>
    match alookup s.debounceInfo k with
    | none => some (s, [])
    | some dbi =>
      match alookup dbi.runningSubscriptions g with
      | none => some (s, [])
      | some rsub => some (onError s k g rsub.snapshot e)
  | Ev.dcomplete k g =>
    match alookup s.debounceInfo k with
    | none => some (s, [])
    | some dbi =>
      match alookup dbi.runningSubscriptions g with
      | none => some (s, [])
      | some rsub => some (onComplete s k g rsub.snapshot)
  | Ev.cancelG k g obs => some (unsubscribe s k g obs)

/-- Run a list of events, accumulating effects; `none` if any step
throws. -/
def run (s : DState) : List Ev → Option (DState × List Effect)
  | [] => some (s, [])
  | e :: rest =>
    match step s e with
    | none => none
    | some (s1, effs) =>
      match run s1 rest with
      | none => none
      | some (s2, effs2) => some (s2, effs ++ effs2)

/-- One submission of a burst: debounce timeout override, payload,
observer id. -/
structure Submission where
  dt : Option Nat
  req : Request
  obs : Nat
deriving DecidableEq, Repr

/-- The submit events of a burst to one key. -/
def submitEvs (k : String) (subs : List Submission) : List Ev :=
  subs.map (fun sb => Ev.submit (some k) sb.dt sb.req sb.obs)

/-- Cancellation events for a batch of observers of one generation. -/
def cancelEvs (k : String) (g : Nat) (cs : List Nat) : List Ev :=
  cs.map (fun c => Ev.cancelG k g c)

/-- The payload of the last submission of a burst (`r` if the burst is
empty). -/
def lastReq (r : Request) : List Submission → Request
  | [] => r
  | sb :: rest => lastReq sb.req rest

/-- The observer ids of a burst, in submission order. -/
def burstObs (sb : Submission) (rest : List Submission) : List Nat :=
  sb.obs :: rest.map (fun x => x.obs)

/-- All armed timer handles were allocated by the counter. -/
def timersOk (s : DState) : Prop :=
  ∀ tm ∈ s.armed, tm.id < s.nextTimerId

/-- The key has no accumulating batch (its group is absent, or its queue
is empty). -/
def noPending (s : DState) (k : String) : Prop :=
  ∀ dbi, alookup s.debounceInfo k = some dbi → dbi.queuedObservers = []

/-- The key holds no idle group record: if its group exists, at least one
of its two collections (`queuedObservers`, `runningSubscriptions`) is
non-empty. -/
def tidy (s : DState) (k : String) : Prop :=
  ∀ dbi, alookup s.debounceInfo k = some dbi →
    dbi.queuedObservers ≠ [] ∨ dbi.runningSubscriptions ≠ []

/-- An empty link state with the given default delay. -/
def mkState (defaultDelay : Nat) : DState where
  debounceInfo := []
  armed := []
  nextTimerId := 0
  nextSubId := 0
  activeDirect := []
  defaultDelay := defaultDelay

/-- The effects of delivering a sequence of data values to a snapshot:
for each value in order, one `next` per observer in snapshot order. -/
def fanNext (snapshot : List Nat) : List Nat → List Effect
  | [] => []
  | v :: vs => onNext snapshot v ++ fanNext snapshot vs

/-! ### Dictionary and filter lemmas -/

@[simp]
theorem alookup_aset_self {α β : Type} [DecidableEq α]
    (m : List (α × β)) (k : α) (v : β) : alookup (aset m k v) k = some v := by
  simp [aset, alookup]

theorem alookup_aerase_self {α β : Type} [DecidableEq α]
    (m : List (α × β)) (k : α) : alookup (aerase m k) k = none := by
  induction m with
  | nil => simp [aerase, alookup]
  | cons p rest ih =>
    by_cases h : p.1 = k <;> simp [aerase, alookup, h, ih]

theorem alookup_aerase_ne {α β : Type} [DecidableEq α]
    (m : List (α × β)) (k k' : α) (h : k' ≠ k) :
    alookup (aerase m k) k' = alookup m k' := by
  induction m with
  | nil => simp [aerase]
  | cons p rest ih =>
    have hkk : ¬k = k' := fun e => h e.symm
    by_cases hp : p.1 = k
    · have hpk : ¬p.1 = k' := by
        rw [hp]; exact hkk
      simp [aerase, alookup, hp, hpk, hkk, ih]
    · have hkk' : ¬k' = k := h
      by_cases hp' : p.1 = k' <;>
        simp [aerase, alookup, hp, hp', hkk, hkk', ih]

theorem alookup_aset_ne {α β : Type} [DecidableEq α]
    (m : List (α × β)) (k k' : α) (v : β) (h : k' ≠ k) :
    alookup (aset m k v) k' = alookup m k' := by
  have : ¬k = k' := fun e => h e.symm
  simp [aset, alookup, this, alookup_aerase_ne m k k' h]

theorem aerase_idem {α β : Type} [DecidableEq α]
    (m : List (α × β)) (k : α) : aerase (aerase m k) k = aerase m k := by
  induction m with
  | nil => simp [aerase]
  | cons p rest ih =>
    by_cases h : p.1 = k <;> simp [aerase, h, ih]

theorem aerase_aset_self {α β : Type} [DecidableEq α]
    (m : List (α × β)) (k : α) (v : β) : aerase (aset m k v) k = aerase m k := by
  rw [aset]
  rw [show aerase ((k, v) :: aerase m k) k = aerase (aerase m k) k from by
    simp [aerase]]
  exact aerase_idem m k

theorem aset_aset_self {α β : Type} [DecidableEq α]
    (m : List (α × β)) (k : α) (v w : β) :
    aset (aset m k v) k w = aset m k w := by
  rw [show aset (aset m k v) k w = (k, w) :: aerase (aset m k v) k from rfl]
  rw [aerase_aset_self]
  rfl

theorem filter_idem {α : Type} (p : α → Bool) (l : List α) :
    (l.filter p).filter p = l.filter p := by
  induction l with
  | nil => rfl
  | cons a rest ih =>
    by_cases h : p a <;> simp [List.filter, h, ih]

theorem clearTimer_idem (a : List Timer) (h : Option Nat) :
    clearTimer (clearTimer a h) h = clearTimer a h := by
  cases h <;> simp [clearTimer, filter_idem]

theorem not_mem_filter_ne (l : List Nat) (x : Nat) :
    x ∉ l.filter (fun o => o ≠ x) := by
  simp [List.mem_filter]

example :
    run (mkState 500)
      [Ev.submit (some "k") none ⟨1, 2⟩ 10,
       Ev.submit (some "k") none ⟨3, 4⟩ 11,
       Ev.fire 1] =
    some
      ({ debounceInfo :=
          [("k",
            { timeout := some 1
              runningSubscriptions := [(0, ⟨[10, 11], 0, [10, 11]⟩)]
              queuedObservers := []
              currentGroupId := 1
              lastRequest := some ⟨3, 4⟩ })]
         armed := []
         nextTimerId := 2
         nextSubId := 1
         activeDirect := []
         defaultDelay := 500 },
       [Effect.fwd "k" ⟨3, 4⟩ 0]) := by decide

/-! ### Claim C4 (corrected) -/

/-- C4 counterexample: invoking `flush` for a key whose group record is
absent does not hit a defensive guard — the source reads
`dbi.queuedObservers` off `undefined` and throws a TypeError (`none`),
contradicting the claim that this case does nothing and does not fail. -/
theorem claim4_flush_absent_throws : flush (mkState 500) "k" = none := by
  rfl

/-- C4 (amended): when the group record exists but its `queuedObservers`
is empty (or `lastRequest` is unset), `flush` makes no downstream call,
changes no state and does not fail.  When the record is absent, `flush`
is not guarded: it fails with a TypeError instead of returning. -/
theorem claim4_flush_guard (s : DState) (k : String) (dbi : DebounceMetadata)
    (h : alookup s.debounceInfo k = some dbi)
    (hg : dbi.queuedObservers = [] ∨ dbi.lastRequest = none) :
    flush s k = some (s, []) := by
  rcases hg with hq | hr
  · simp [flush, h, hq]
  · simp [flush, h, hr]

/-- C4 witness. -/
theorem claim4_flush_guard_witness :
    flush
      { debounceInfo := [("k", freshMetadata)]
        armed := []
        nextTimerId := 0
        nextSubId := 0
        activeDirect := []
        defaultDelay := 500 } "k" =
    some
      ({ debounceInfo := [("k", freshMetadata)]
         armed := []
         nextTimerId := 0
         nextSubId := 0
         activeDirect := []
         defaultDelay := 500 }, []) :=
  claim4_flush_guard _ "k" freshMetadata (by decide) (Or.inl rfl)

/-! ### Claim C5 (corrected) -/

/-- C5 counterexample: after a successful `flush` the group's `timeout`
field still holds the old timer handle (`some 5` below) — `flush` never
clears the timer handle, contradicting that postcondition of the claim. -/
theorem claim5_timer_not_cleared :
    (flush
        { debounceInfo :=
            [("k",
              { timeout := some 5
                runningSubscriptions := []
                queuedObservers := [7]
                currentGroupId := 0
                lastRequest := some ⟨1, 2⟩ })]
          armed := []
          nextTimerId := 6
          nextSubId := 0
          activeDirect := []
          defaultDelay := 500 } "k").map
      (fun r => (alookup r.1.debounceInfo "k").map (fun dbi => dbi.timeout)) =
    some (some (some 5)) := by decide

/-- C5 (amended): for a key with a non-empty accumulating batch, `flush`
snapshots `queuedObservers` and `lastRequest`, calls the downstream
executor with `lastRequest`, stores the returned cancel handle and the
observer snapshot under the running entry for the live generation g,
clears `queuedObservers` and increments the generation to g + 1 — but it
leaves the `timeout` field untouched (the stale handle of the fired timer
remains; the claim's "clears the timer handle" postcondition does not
hold). -/
theorem claim5_flush_postconditions (s : DState) (k : String)
    (dbi : DebounceMetadata) (req : Request)
    (h : alookup s.debounceInfo k = some dbi)
    (hq : dbi.queuedObservers ≠ [])
    (hr : dbi.lastRequest = some req) :
    flush s k =
      some
        ({ s with
            debounceInfo :=
              aset s.debounceInfo k
                { timeout := dbi.timeout
                  runningSubscriptions :=
                    aset dbi.runningSubscriptions dbi.currentGroupId
                      ⟨dbi.queuedObservers, s.nextSubId, dbi.queuedObservers⟩
                  queuedObservers := []
                  currentGroupId := dbi.currentGroupId + 1
                  lastRequest := dbi.lastRequest }
            nextSubId := s.nextSubId + 1 },
         [Effect.fwd k req s.nextSubId]) := by
  have hqe : dbi.queuedObservers.isEmpty = false := by
    cases hql : dbi.queuedObservers with
    | nil => exact absurd hql hq
    | cons a l => rfl
  simp [flush, h, hr, hqe]

/-- C5 witness. -/
theorem claim5_flush_postconditions_witness :
    flush
      { debounceInfo :=
          [("k",
            { timeout := some 5
              runningSubscriptions := []
              queuedObservers := [7]
              currentGroupId := 0
              lastRequest := some ⟨1, 2⟩ })]
        armed := []
        nextTimerId := 6
        nextSubId := 0
        activeDirect := []
        defaultDelay := 500 } "k" =
    some
      ({ debounceInfo :=
           aset
             [("k",
               { timeout := some 5
                 runningSubscriptions := []
                 queuedObservers := [7]
                 currentGroupId := 0
                 lastRequest := some ⟨1, 2⟩ })] "k"
             { timeout := some 5
               runningSubscriptions := aset [] 0 ⟨[7], 0, [7]⟩
               queuedObservers := []
               currentGroupId := 1
               lastRequest := some ⟨1, 2⟩ }
         armed := []
         nextTimerId := 6
         nextSubId := 1
         activeDirect := []
         defaultDelay := 500 },
       [Effect.fwd "k" ⟨1, 2⟩ 0]) :=
  claim5_flush_postconditions
    { debounceInfo :=
        [("k",
          { timeout := some 5
            runningSubscriptions := []
            queuedObservers := [7]
            currentGroupId := 0
            lastRequest := some ⟨1, 2⟩ })]
      armed := []
      nextTimerId := 6
      nextSubId := 0
      activeDirect := []
      defaultDelay := 500 } "k"
    { timeout := some 5
      runningSubscriptions := []
      queuedObservers := [7]
      currentGroupId := 0
      lastRequest := some ⟨1, 2⟩ } ⟨1, 2⟩ (by decide) (by decide) rfl

/-! ### Claim C3 -/

/-- C3: once a generation g has been flushed and its downstream call is
still in flight (its `runningSubscriptions` entry exists), cancelling the
last remaining observer of g invokes the downstream cancel handle
(`subscription.unsubscribe()`) exactly then, and `cleanup` removes the
`runningSubscriptions[g]` entry. -/
theorem claim3_running_cancel (s : DState) (k : String) (g obs : Nat)
    (dbi : DebounceMetadata) (og : RunningSub)
    (h : alookup s.debounceInfo k = some dbi)
    (hg : g ≠ dbi.currentGroupId)
    (ho : alookup dbi.runningSubscriptions g = some og)
    (hlast : og.observers.filter (fun o => o ≠ obs) = []) :
    (unsubscribe s k g obs).2 = [Effect.cancelSub og.subscription] ∧
    ∀ dbi', alookup (unsubscribe s k g obs).1.debounceInfo k = some dbi' →
      alookup dbi'.runningSubscriptions g = none := by
  have hr : unsubscribe s k g obs =
      (cleanup
        { s with
            debounceInfo :=
              aset s.debounceInfo k
                { dbi with
                    runningSubscriptions :=
                      aset dbi.runningSubscriptions g
                        { og with observers := [] } } } k g,
       [Effect.cancelSub og.subscription]) := by
    have hall : ∀ a ∈ og.observers, a = obs := by simpa using hlast
    have hfil : List.filter (fun o => !decide (o = obs)) og.observers = [] := by
      simpa using hlast
    simp [unsubscribe, h, hg, ho, hall, hfil]
  refine ⟨by rw [hr], ?_⟩
  intro dbi' hd'
  rw [hr] at hd'
  simp only [cleanup, alookup_aset_self, aerase_aset_self] at hd'
  by_cases hemp :
      ((aerase dbi.runningSubscriptions g).isEmpty &&
        dbi.queuedObservers.isEmpty) = true
  · rw [if_pos hemp] at hd'
    simp only [aerase_aset_self, alookup_aerase_self] at hd'
    exact absurd hd' (by simp)
  · rw [if_neg hemp] at hd'
    simp only [aset_aset_self, alookup_aset_self, Option.some_inj] at hd'
    rw [← hd']
    exact alookup_aerase_self _ _

/-- C3 witness. -/
theorem claim3_running_cancel_witness :
    (unsubscribe
        { debounceInfo :=
            [("k",
              { timeout := some 0
                runningSubscriptions := [(0, ⟨[7], 3, [7]⟩)]
                queuedObservers := []
                currentGroupId := 1
                lastRequest := some ⟨1, 2⟩ })]
          armed := []
          nextTimerId := 1
          nextSubId := 4
          activeDirect := []
          defaultDelay := 500 } "k" 0 7).2 =
      [Effect.cancelSub 3] ∧
    ∀ dbi',
      alookup
          (unsubscribe
              { debounceInfo :=
                  [("k",
                    { timeout := some 0
                      runningSubscriptions := [(0, ⟨[7], 3, [7]⟩)]
                      queuedObservers := []
                      currentGroupId := 1
                      lastRequest := some ⟨1, 2⟩ })]
                armed := []
                nextTimerId := 1
                nextSubId := 4
                activeDirect := []
                defaultDelay := 500 } "k" 0 7).1.debounceInfo "k" =
        some dbi' →
      alookup dbi'.runningSubscriptions 0 = none :=
  claim3_running_cancel
    { debounceInfo :=
        [("k",
          { timeout := some 0
            runningSubscriptions := [(0, ⟨[7], 3, [7]⟩)]
            queuedObservers := []
            currentGroupId := 1
            lastRequest := some ⟨1, 2⟩ })]
      armed := []
      nextTimerId := 1
      nextSubId := 4
      activeDirect := []
      defaultDelay := 500 } "k" 0 7
    { timeout := some 0
      runningSubscriptions := [(0, ⟨[7], 3, [7]⟩)]
      queuedObservers := []
      currentGroupId := 1
      lastRequest := some ⟨1, 2⟩ } ⟨[7], 3, [7]⟩ (by decide) (by decide)
    (by decide) (by decide)

/-! ### Claim C10 -/

/-- C10: if an observer of an in-flight generation g cancels while at
least one other observer of g remains, no downstream cancel is issued,
the entry for g keeps its flush-time `snapshot` (only the `observers`
field is replaced by a filtered copy), and every subsequent
data/error/completion event of g still fans out over that snapshot — so
the cancelled observer keeps receiving the events. -/
theorem claim10_snapshot_fanout (s : DState) (k : String) (g obs : Nat)
    (dbi : DebounceMetadata) (og : RunningSub)
    (h : alookup s.debounceInfo k = some dbi)
    (hg : g ≠ dbi.currentGroupId)
    (ho : alookup dbi.runningSubscriptions g = some og)
    (hmem : obs ∈ og.snapshot)
    (hrem : og.observers.filter (fun o => o ≠ obs) ≠ []) :
    (unsubscribe s k g obs).2 = [] ∧
    (∃ dbi',
       alookup (unsubscribe s k g obs).1.debounceInfo k = some dbi' ∧
       alookup dbi'.runningSubscriptions g =
         some { og with observers := og.observers.filter (fun o => o ≠ obs) } ∧
       dbi'.currentGroupId = dbi.currentGroupId) ∧
    (∀ v,
       step (unsubscribe s k g obs).1 (Ev.dnext k g v) =
         some ((unsubscribe s k g obs).1, onNext og.snapshot v) ∧
       Effect.next obs v ∈ onNext og.snapshot v) ∧
    (∀ e,
       (step (unsubscribe s k g obs).1 (Ev.derror k g e)).map (fun r => r.2) =
         some (og.snapshot.map (fun o => Effect.error o e)) ∧
       Effect.error obs e ∈ og.snapshot.map (fun o => Effect.error o e)) ∧
    ((step (unsubscribe s k g obs).1 (Ev.dcomplete k g)).map (fun r => r.2) =
       some (og.snapshot.map (fun o => Effect.complete o)) ∧
     Effect.complete obs ∈ og.snapshot.map (fun o => Effect.complete o)) := by
  have hnall : ¬∀ a ∈ og.observers, a = obs := by
    simpa [List.filter_eq_nil_iff] using hrem
  have hr : unsubscribe s k g obs =
      ({ s with
          debounceInfo :=
            aset s.debounceInfo k
              { dbi with
                  runningSubscriptions :=
                    aset dbi.runningSubscriptions g
                      { og with
                          observers :=
                            og.observers.filter (fun o => o ≠ obs) } } },
       []) := by
    simp [unsubscribe, h, hg, ho, hnall]
  have hstep :
      alookup (unsubscribe s k g obs).1.debounceInfo k =
        some
          { dbi with
              runningSubscriptions :=
                aset dbi.runningSubscriptions g
                  { og with
                      observers := og.observers.filter (fun o => o ≠ obs) } } := by
    rw [hr]
    exact alookup_aset_self _ _ _
  refine ⟨by rw [hr], ⟨_, hstep, alookup_aset_self _ _ _, rfl⟩, ?_, ?_, ?_⟩
  · intro v
    refine ⟨?_, List.mem_map_of_mem _ hmem⟩
    simp [step, hstep, alookup_aset_self]
  · intro e
    refine ⟨?_, List.mem_map_of_mem _ hmem⟩
    simp [step, hstep, alookup_aset_self, onError]
  · refine ⟨?_, List.mem_map_of_mem _ hmem⟩
    simp [step, hstep, alookup_aset_self, onComplete]

/-- C10 witness: observer 7 cancels while 8 remains; no downstream cancel
is issued. -/
theorem claim10_snapshot_fanout_witness :
    (unsubscribe
        { debounceInfo :=
            [("k",
              { timeout := some 0
                runningSubscriptions := [(0, ⟨[7, 8], 3, [7, 8]⟩)]
                queuedObservers := []
                currentGroupId := 1
                lastRequest := some ⟨1, 2⟩ })]
          armed := []
          nextTimerId := 1
          nextSubId := 4
          activeDirect := []
          defaultDelay := 500 } "k" 0 7).2 = [] :=
  (claim10_snapshot_fanout
    { debounceInfo :=
        [("k",
          { timeout := some 0
            runningSubscriptions := [(0, ⟨[7, 8], 3, [7, 8]⟩)]
            queuedObservers := []
            currentGroupId := 1
            lastRequest := some ⟨1, 2⟩ })]
      armed := []
      nextTimerId := 1
      nextSubId := 4
      activeDirect := []
      defaultDelay := 500 } "k" 0 7
    { timeout := some 0
      runningSubscriptions := [(0, ⟨[7, 8], 3, [7, 8]⟩)]
      queuedObservers := []
      currentGroupId := 1
      lastRequest := some ⟨1, 2⟩ } ⟨[7, 8], 3, [7, 8]⟩ (by decide) (by decide)
    (by decide) (by decide) (by decide)).1

/-! ### Claim C9 -/

/-- C9: a submission whose `debounceKey` is absent or empty bypasses
coalescing: the operation is forwarded immediately to the downstream
executor, no group state is created or modified for any key
(`debounceInfo` is untouched), the returned handle proxies the direct
call's cancellation, and no error is raised (the step returns
normally). -/
theorem claim9_bypass (s : DState) (key : Option String) (dt : Option Nat)
    (req : Request) (obs : Nat) (h : keyFalsy key = true) :
    request s key dt req obs =
      ({ s with
          nextSubId := s.nextSubId + 1
          activeDirect := s.activeDirect ++ [s.nextSubId] },
       [Effect.fwdDirect req s.nextSubId], Handle.direct s.nextSubId) ∧
    (request s key dt req obs).1.debounceInfo = s.debounceInfo ∧
    (cancelHandle (request s key dt req obs).1
        (request s key dt req obs).2.2).2 =
      [Effect.cancelSub s.nextSubId] ∧
    step s (Ev.submit key dt req obs) =
      some ((request s key dt req obs).1, [Effect.fwdDirect req s.nextSubId]) := by
  have hr : request s key dt req obs =
      ({ s with
          nextSubId := s.nextSubId + 1
          activeDirect := s.activeDirect ++ [s.nextSubId] },
       [Effect.fwdDirect req s.nextSubId], Handle.direct s.nextSubId) := by
    simp [request, h]
  have hmem : s.nextSubId ∈ s.activeDirect ++ [s.nextSubId] := by
    simp
  refine ⟨hr, by rw [hr], ?_, ?_⟩
  · rw [hr]
    simp [cancelHandle, hmem]
  · rw [hr]
    simp [step, hr]

/-- C9 witness. -/
theorem claim9_bypass_witness :
    request (mkState 500) none none ⟨1, 2⟩ 10 =
      ({ mkState 500 with
          nextSubId := 1
          activeDirect := [0] },
       [Effect.fwdDirect ⟨1, 2⟩ 0], Handle.direct 0) :=
  (claim9_bypass (mkState 500) none none ⟨1, 2⟩ 10 rfl).1

/-! ### Case lemmas for cleanup and unsubscribe -/

theorem cleanup_absent (s : DState) (k : String) (g : Nat)
    (h : alookup s.debounceInfo k = none) : cleanup s k g = s := by
  simp [cleanup, h]

theorem cleanup_delete (s : DState) (k : String) (g : Nat)
    (dbi : DebounceMetadata) (h : alookup s.debounceInfo k = some dbi)
    (h1 : aerase dbi.runningSubscriptions g = [])
    (h2 : dbi.queuedObservers = []) :
    cleanup s k g =
      { s with
          debounceInfo := aerase s.debounceInfo k
          armed :=
            if g = dbi.currentGroupId then clearTimer s.armed dbi.timeout
            else s.armed } := by
  simp [cleanup, h, h1, h2]

theorem cleanup_keep (s : DState) (k : String) (g : Nat)
    (dbi : DebounceMetadata) (h : alookup s.debounceInfo k = some dbi)
    (h1 : ¬(aerase dbi.runningSubscriptions g = [] ∧ dbi.queuedObservers = [])) :
    cleanup s k g =
      { s with
          debounceInfo :=
            aset s.debounceInfo k
              { dbi with
                  runningSubscriptions := aerase dbi.runningSubscriptions g }
          armed :=
            if g = dbi.currentGroupId then clearTimer s.armed dbi.timeout
            else s.armed } := by
  have hb : ((aerase dbi.runningSubscriptions g).isEmpty &&
      dbi.queuedObservers.isEmpty) = false := by
    cases hrs : aerase dbi.runningSubscriptions g with
    | nil =>
      cases hq : dbi.queuedObservers with
      | nil => exact absurd ⟨hrs, hq⟩ h1
      | cons a l => simp
    | cons a l => simp
  simp [cleanup, h, hb]

theorem unsubscribe_absent (s : DState) (k : String) (g o : Nat)
    (h : alookup s.debounceInfo k = none) :
    unsubscribe s k g o = (s, []) := by
  simp [unsubscribe, h]

theorem unsubscribe_pending_keep (s : DState) (k : String) (g o : Nat)
    (dbi : DebounceMetadata) (h : alookup s.debounceInfo k = some dbi)
    (hg : g = dbi.currentGroupId)
    (hq : dbi.queuedObservers.filter (fun x => x ≠ o) ≠ []) :
    unsubscribe s k g o =
      ({ s with
          debounceInfo :=
            aset s.debounceInfo k
              { dbi with
                  queuedObservers :=
                    dbi.queuedObservers.filter (fun x => x ≠ o) } },
       []) := by
  have hnall : ¬∀ a ∈ dbi.queuedObservers, a = o := by
    simpa [List.filter_eq_nil_iff] using hq
  simp [unsubscribe, h, hg, hnall]

theorem unsubscribe_pending_empty (s : DState) (k : String) (g o : Nat)
    (dbi : DebounceMetadata) (h : alookup s.debounceInfo k = some dbi)
    (hg : g = dbi.currentGroupId)
    (hq : dbi.queuedObservers.filter (fun x => x ≠ o) = []) :
    unsubscribe s k g o =
      (cleanup
        { s with
            debounceInfo :=
              aset s.debounceInfo k { dbi with queuedObservers := [] } } k g,
       []) := by
  have hall : ∀ a ∈ dbi.queuedObservers, a = o := by
    simpa [List.filter_eq_nil_iff] using hq
  have hfil : List.filter (fun x => !decide (x = o)) dbi.queuedObservers = [] := by
    simpa using hq
  simp [unsubscribe, h, hg, hall, hfil]

theorem unsubscribe_running_absent (s : DState) (k : String) (g o : Nat)
    (dbi : DebounceMetadata) (h : alookup s.debounceInfo k = some dbi)
    (hg : g ≠ dbi.currentGroupId)
    (ho : alookup dbi.runningSubscriptions g = none) :
    unsubscribe s k g o = (s, []) := by
  simp [unsubscribe, h, hg, ho]

theorem unsubscribe_running_keep (s : DState) (k : String) (g o : Nat)
    (dbi : DebounceMetadata) (og : RunningSub)
    (h : alookup s.debounceInfo k = some dbi)
    (hg : g ≠ dbi.currentGroupId)
    (ho : alookup dbi.runningSubscriptions g = some og)
    (hoe : og.observers.filter (fun x => x ≠ o) ≠ []) :
    unsubscribe s k g o =
      ({ s with
          debounceInfo :=
            aset s.debounceInfo k
              { dbi with
                  runningSubscriptions :=
                    aset dbi.runningSubscriptions g
                      { og with
                          observers := og.observers.filter (fun x => x ≠ o) } } },
       []) := by
  have hnall : ¬∀ a ∈ og.observers, a = o := by
    simpa [List.filter_eq_nil_iff] using hoe
  simp [unsubscribe, h, hg, ho, hnall]

theorem unsubscribe_running_empty (s : DState) (k : String) (g o : Nat)
    (dbi : DebounceMetadata) (og : RunningSub)
    (h : alookup s.debounceInfo k = some dbi)
    (hg : g ≠ dbi.currentGroupId)
    (ho : alookup dbi.runningSubscriptions g = some og)
    (hoe : og.observers.filter (fun x => x ≠ o) = []) :
    unsubscribe s k g o =
      (cleanup
        { s with
            debounceInfo :=
              aset s.debounceInfo k
                { dbi with
                    runningSubscriptions :=
                      aset dbi.runningSubscriptions g
                        { og with observers := [] } } } k g,
       [Effect.cancelSub og.subscription]) := by
  have hall : ∀ a ∈ og.observers, a = o := by
    simpa [List.filter_eq_nil_iff] using hoe
  have hfil : List.filter (fun x => !decide (x = o)) og.observers = [] := by
    simpa using hoe
  simp [unsubscribe, h, hg, ho, hall, hfil]

/-- Applying `unsubscribe` a second time with the same arguments changes
nothing and emits nothing, on every state. -/
theorem unsubscribe_idem (s : DState) (k : String) (g o : Nat) :
    unsubscribe (unsubscribe s k g o).1 k g o = ((unsubscribe s k g o).1, []) := by
  rcases hl : alookup s.debounceInfo k with _ | dbi
  · rw [unsubscribe_absent s k g o hl]
    exact unsubscribe_absent s k g o hl
  · by_cases hg : g = dbi.currentGroupId
    · by_cases hq : dbi.queuedObservers.filter (fun x => x ≠ o) = []
      · rw [unsubscribe_pending_empty s k g o dbi hl hg hq]
        by_cases hrs : aerase dbi.runningSubscriptions g = []
        · rw [cleanup_delete _ k g { dbi with queuedObservers := [] }
            (alookup_aset_self _ _ _) hrs rfl]
          exact unsubscribe_absent _ k g o (alookup_aerase_self _ _)
        · rw [cleanup_keep _ k g { dbi with queuedObservers := [] }
            (alookup_aset_self _ _ _) (fun hx => hrs hx.1)]
          rw [unsubscribe_pending_empty _ k g o
            { timeout := dbi.timeout
              runningSubscriptions := aerase dbi.runningSubscriptions g
              queuedObservers := []
              currentGroupId := dbi.currentGroupId
              lastRequest := dbi.lastRequest }
            (alookup_aset_self _ _ _) hg rfl]
          rw [cleanup_keep _ k g
            { timeout := dbi.timeout
              runningSubscriptions := aerase dbi.runningSubscriptions g
              queuedObservers := []
              currentGroupId := dbi.currentGroupId
              lastRequest := dbi.lastRequest }
            (alookup_aset_self _ _ _)
            (fun hx => by
              have hx1 := hx.1
              rw [aerase_idem] at hx1
              exact hrs hx1)]
          simp [aset_aset_self, aerase_idem, clearTimer_idem, hg]
      · rw [unsubscribe_pending_keep s k g o dbi hl hg hq]
        have hq2 :
            (dbi.queuedObservers.filter (fun x => x ≠ o)).filter
              (fun x => x ≠ o) ≠ [] := by
          rw [filter_idem]
          exact hq
        rw [unsubscribe_pending_keep _ k g o
          { dbi with
              queuedObservers := dbi.queuedObservers.filter (fun x => x ≠ o) }
          (alookup_aset_self _ _ _) hg hq2]
        simp [aset_aset_self, filter_idem]
    · rcases ho : alookup dbi.runningSubscriptions g with _ | og
      · rw [unsubscribe_running_absent s k g o dbi hl hg ho]
        exact unsubscribe_running_absent s k g o dbi hl hg ho
      · by_cases hoe : og.observers.filter (fun x => x ≠ o) = []
        · rw [unsubscribe_running_empty s k g o dbi og hl hg ho hoe]
          have hea :
              aerase
                (aset dbi.runningSubscriptions g { og with observers := [] }) g =
              aerase dbi.runningSubscriptions g := aerase_aset_self _ _ _
          by_cases hrs :
              aerase dbi.runningSubscriptions g = [] ∧ dbi.queuedObservers = []
          · rw [cleanup_delete _ k g
              { dbi with
                  runningSubscriptions :=
                    aset dbi.runningSubscriptions g { og with observers := [] } }
              (alookup_aset_self _ _ _)
              (by rw [hea]; exact hrs.1)
              hrs.2]
            exact unsubscribe_absent _ k g o (alookup_aerase_self _ _)
          · rw [cleanup_keep _ k g
              { dbi with
                  runningSubscriptions :=
                    aset dbi.runningSubscriptions g { og with observers := [] } }
              (alookup_aset_self _ _ _)
              (fun hx => by
                have hx1 := hx.1
                rw [hea] at hx1
                exact hrs ⟨hx1, hx.2⟩)]
            exact unsubscribe_running_absent _ k g o
              { timeout := dbi.timeout
                runningSubscriptions :=
                  aerase
                    (aset dbi.runningSubscriptions g { og with observers := [] }) g
                queuedObservers := dbi.queuedObservers
                currentGroupId := dbi.currentGroupId
                lastRequest := dbi.lastRequest }
              (alookup_aset_self _ _ _) hg (alookup_aerase_self _ _)
        · rw [unsubscribe_running_keep s k g o dbi og hl hg ho hoe]
          have hoe2 :
              (og.observers.filter (fun x => x ≠ o)).filter (fun x => x ≠ o)
                ≠ [] := by
            rw [filter_idem]
            exact hoe
          rw [unsubscribe_running_keep _ k g o
            { dbi with
                runningSubscriptions :=
                  aset dbi.runningSubscriptions g
                    { og with observers := og.observers.filter (fun x => x ≠ o) } }
            { og with observers := og.observers.filter (fun x => x ≠ o) }
            (alookup_aset_self _ _ _) hg (alookup_aset_self _ _ _) hoe2]
          simp [aset_aset_self, filter_idem]

/-! ### Claim C7 -/

/-- C7: cancelling a handle twice in succession yields the same state and
the same observable effects as cancelling it once (the second cancel
changes nothing and emits nothing), for every handle and every state; in
particular a cancel arriving after the group has been torn down is a
no-op. -/
theorem claim7_cancel_idempotent :
    (∀ (s : DState) (h : Handle),
       cancelHandle (cancelHandle s h).1 h = ((cancelHandle s h).1, [])) ∧
    (∀ (s : DState) (k : String) (g o : Nat),
       alookup s.debounceInfo k = none → unsubscribe s k g o = (s, [])) := by
  constructor
  · intro s h
    cases h with
    | grouped k g o => exact unsubscribe_idem s k g o
    | direct subId =>
      by_cases hm : subId ∈ s.activeDirect
      · have h1 : cancelHandle s (Handle.direct subId) =
            ({ s with
                activeDirect := s.activeDirect.filter (fun i => i ≠ subId) },
             [Effect.cancelSub subId]) := by
          simp [cancelHandle, hm]
        rw [h1]
        have hnm : subId ∉ s.activeDirect.filter (fun i => i ≠ subId) :=
          not_mem_filter_ne _ _
        simp [cancelHandle, hnm]
      · have h1 : cancelHandle s (Handle.direct subId) = (s, []) := by
          simp [cancelHandle, hm]
        rw [h1]
        simp [cancelHandle, hm]
  · intro s k g o h
    exact unsubscribe_absent s k g o h

/-- C7 witness. -/
theorem claim7_cancel_idempotent_witness :
    cancelHandle (cancelHandle (mkState 500) (Handle.grouped "k" 0 7)).1
        (Handle.grouped "k" 0 7) =
      ((cancelHandle (mkState 500) (Handle.grouped "k" 0 7)).1, []) ∧
    unsubscribe (mkState 500) "k" 0 7 = (mkState 500, []) :=
  ⟨claim7_cancel_idempotent.1 (mkState 500) (Handle.grouped "k" 0 7),
   claim7_cancel_idempotent.2 (mkState 500) "k" 0 7 rfl⟩

/-! ### Locality lemmas: operations touch only their own key -/

theorem aset_ne_nil {α β : Type} [DecidableEq α]
    (m : List (α × β)) (k : α) (v : β) : aset m k v ≠ [] := by
  simp [aset]

theorem cleanup_other (s : DState) (k k' : String) (g : Nat) (hne : k ≠ k') :
    alookup (cleanup s k' g).debounceInfo k = alookup s.debounceInfo k := by
  rcases hl : alookup s.debounceInfo k' with _ | dbi
  · rw [cleanup_absent s k' g hl]
  · by_cases hc : aerase dbi.runningSubscriptions g = [] ∧ dbi.queuedObservers = []
    · rw [cleanup_delete s k' g dbi hl hc.1 hc.2]
      exact alookup_aerase_ne _ _ _ hne
    · rw [cleanup_keep s k' g dbi hl hc]
      exact alookup_aset_ne _ _ _ _ hne

theorem unsubscribe_other (s : DState) (k k' : String) (g o : Nat)
    (hne : k ≠ k') :
    alookup (unsubscribe s k' g o).1.debounceInfo k =
      alookup s.debounceInfo k := by
  rcases hl : alookup s.debounceInfo k' with _ | dbi
  · rw [unsubscribe_absent s k' g o hl]
  · by_cases hg : g = dbi.currentGroupId
    · by_cases hq : dbi.queuedObservers.filter (fun x => x ≠ o) = []
      · rw [unsubscribe_pending_empty s k' g o dbi hl hg hq]
        rw [cleanup_other _ k k' g hne]
        exact alookup_aset_ne _ _ _ _ hne
      · rw [unsubscribe_pending_keep s k' g o dbi hl hg hq]
        exact alookup_aset_ne _ _ _ _ hne
    · rcases ho : alookup dbi.runningSubscriptions g with _ | og
      · rw [unsubscribe_running_absent s k' g o dbi hl hg ho]
      · by_cases hoe : og.observers.filter (fun x => x ≠ o) = []
        · rw [unsubscribe_running_empty s k' g o dbi og hl hg ho hoe]
          rw [cleanup_other _ k k' g hne]
          exact alookup_aset_ne _ _ _ _ hne
        · rw [unsubscribe_running_keep s k' g o dbi og hl hg ho hoe]
          exact alookup_aset_ne _ _ _ _ hne

/-! ### Characterization and tidiness lemmas -/

theorem some_pair_eq {A B : Type} {a c : A} {b d : B}
    (h : (some (a, b) : Option (A × B)) = some (c, d)) : a = c ∧ b = d := by
  injection h with h1
  exact ⟨congrArg Prod.fst h1, congrArg Prod.snd h1⟩

theorem enqueueRequest_dI (s : DState) (k : String) (dt : Option Nat)
    (req : Request) (obs : Nat) :
    (enqueueRequest s k dt req obs).1.debounceInfo =
      aset s.debounceInfo k
        { (alookup s.debounceInfo k).getD freshMetadata with
            queuedObservers :=
              ((alookup s.debounceInfo k).getD freshMetadata).queuedObservers
                ++ [obs]
            lastRequest := some req
            timeout := some s.nextTimerId } := rfl

theorem flush_noop_eq (s : DState) (k : String) (dbi : DebounceMetadata)
    (h : alookup s.debounceInfo k = some dbi)
    (hg : dbi.queuedObservers = [] ∨ dbi.lastRequest = none) :
    flush s k = some (s, []) := by
  rcases hg with hq | hr
  · simp [flush, h, hq]
  · simp [flush, h, hr]

theorem flush_run_eq (s : DState) (k : String) (dbi : DebounceMetadata)
    (req : Request)
    (h : alookup s.debounceInfo k = some dbi)
    (hq : dbi.queuedObservers ≠ [])
    (hr : dbi.lastRequest = some req) :
    flush s k =
      some
        ({ s with
            debounceInfo :=
              aset s.debounceInfo k
                { timeout := dbi.timeout
                  runningSubscriptions :=
                    aset dbi.runningSubscriptions dbi.currentGroupId
                      ⟨dbi.queuedObservers, s.nextSubId, dbi.queuedObservers⟩
                  queuedObservers := []
                  currentGroupId := dbi.currentGroupId + 1
                  lastRequest := dbi.lastRequest }
            nextSubId := s.nextSubId + 1 },
         [Effect.fwd k req s.nextSubId]) := by
  have hqe : dbi.queuedObservers.isEmpty = false := by
    cases hql : dbi.queuedObservers with
    | nil => exact absurd hql hq
    | cons a l => rfl
  simp [flush, h, hr, hqe]

theorem cleanup_deletes_iff (s : DState) (k : String) (g : Nat)
    (dbi : DebounceMetadata) (h : alookup s.debounceInfo k = some dbi) :
    alookup (cleanup s k g).debounceInfo k = none ↔
      aerase dbi.runningSubscriptions g = [] ∧ dbi.queuedObservers = [] := by
  by_cases hc : aerase dbi.runningSubscriptions g = [] ∧ dbi.queuedObservers = []
  · rw [cleanup_delete s k g dbi h hc.1 hc.2]
    simp [alookup_aerase_self, hc]
  · rw [cleanup_keep s k g dbi h hc]
    simp [alookup_aset_self, hc]

theorem cleanup_tidy_self (s : DState) (k : String) (g : Nat) :
    tidy (cleanup s k g) k := by
  rcases hl : alookup s.debounceInfo k with _ | dbi
  · rw [cleanup_absent s k g hl]
    intro dbi hdbi
    rw [hl] at hdbi
    exact absurd hdbi (by simp)
  · by_cases hc : aerase dbi.runningSubscriptions g = [] ∧ dbi.queuedObservers = []
    · rw [cleanup_delete s k g dbi hl hc.1 hc.2]
      intro dbi' hdbi'
      rw [alookup_aerase_self] at hdbi'
      exact absurd hdbi' (by simp)
    · rw [cleanup_keep s k g dbi hl hc]
      intro dbi' hdbi'
      rw [alookup_aset_self] at hdbi'
      injection hdbi' with h1
      by_cases hqn : dbi.queuedObservers = []
      · right
        intro hrs
        rw [← h1] at hrs
        exact hc ⟨hrs, hqn⟩
      · left
        rw [← h1]
        exact hqn

theorem cleanup_tidy (s : DState) (k' k : String) (g : Nat)
    (ht : tidy s k) : tidy (cleanup s k' g) k := by
  by_cases hk : k = k'
  · subst hk
    exact cleanup_tidy_self s k g
  · intro dbi hdbi
    rw [cleanup_other s k k' g hk] at hdbi
    exact ht dbi hdbi

theorem unsubscribe_tidy (s : DState) (k' k : String) (g o : Nat)
    (ht : tidy s k) : tidy (unsubscribe s k' g o).1 k := by
  by_cases hk : k = k'
  case neg =>
    intro dbi hdbi
    rw [unsubscribe_other s k k' g o hk] at hdbi
    exact ht dbi hdbi
  case pos =>
    subst hk
    rcases hl : alookup s.debounceInfo k with _ | dbi
    · rw [unsubscribe_absent s k g o hl]
      intro dbi hdbi
      rw [hl] at hdbi
      exact absurd hdbi (by simp)
    · by_cases hg : g = dbi.currentGroupId
      · by_cases hq : dbi.queuedObservers.filter (fun x => x ≠ o) = []
        · rw [unsubscribe_pending_empty s k g o dbi hl hg hq]
          exact cleanup_tidy_self _ k g
        · rw [unsubscribe_pending_keep s k g o dbi hl hg hq]
          intro dbi' hdbi'
          rw [alookup_aset_self] at hdbi'
          injection hdbi' with h1
          left
          rw [← h1]
          exact hq
      · rcases ho : alookup dbi.runningSubscriptions g with _ | og
        · rw [unsubscribe_running_absent s k g o dbi hl hg ho]
          exact ht
        · by_cases hoe : og.observers.filter (fun x => x ≠ o) = []
          · rw [unsubscribe_running_empty s k g o dbi og hl hg ho hoe]
            exact cleanup_tidy_self _ k g
          · rw [unsubscribe_running_keep s k g o dbi og hl hg ho hoe]
            intro dbi' hdbi'
            rw [alookup_aset_self] at hdbi'
            injection hdbi' with h1
            right
            rw [← h1]
            exact aset_ne_nil _ _ _

theorem flush_tidy (s s1 : DState) (k' k : String) (effs : List Effect)
    (hf : flush s k' = some (s1, effs)) (ht : tidy s k) : tidy s1 k := by
  rcases hl : alookup s.debounceInfo k' with _ | dbi
  · rw [flush] at hf
    rw [hl] at hf
    exact absurd hf (by simp)
  · rcases hlr : dbi.lastRequest with _ | req
    · rw [flush_noop_eq s k' dbi hl (Or.inr hlr)] at hf
      obtain ⟨hs1, -⟩ := some_pair_eq hf
      rw [← hs1]
      exact ht
    · by_cases hq : dbi.queuedObservers = []
      · rw [flush_noop_eq s k' dbi hl (Or.inl hq)] at hf
        obtain ⟨hs1, -⟩ := some_pair_eq hf
        rw [← hs1]
        exact ht
      · rw [flush_run_eq s k' dbi req hl hq hlr] at hf
        obtain ⟨hs1, -⟩ := some_pair_eq hf
        rw [← hs1]
        intro dbi' hdbi'
        by_cases hk : k' = k
        · subst hk
          rw [alookup_aset_self] at hdbi'
          injection hdbi' with h1
          right
          rw [← h1]
          exact aset_ne_nil _ _ _
        · rw [alookup_aset_ne _ _ _ _ (fun e => hk e.symm)] at hdbi'
          exact ht dbi' hdbi'

/-- Every event step preserves tidiness of every key: no step leaves a
group record whose two collections are both empty. -/
theorem step_tidy (s s1 : DState) (ev : Ev) (effs : List Effect) (k : String)
    (hstep : step s ev = some (s1, effs)) (ht : tidy s k) : tidy s1 k := by
  cases ev with
  | submit key dt req obs =>
    by_cases hkf : keyFalsy key = true
    · have hcomp : step s (Ev.submit key dt req obs) =
          some ({ s with
                    nextSubId := s.nextSubId + 1
                    activeDirect := s.activeDirect ++ [s.nextSubId] },
                [Effect.fwdDirect req s.nextSubId]) := by
        simp [step, request, hkf]
      rw [hcomp] at hstep
      obtain ⟨hs1, -⟩ := some_pair_eq hstep
      rw [← hs1]
      exact ht
    · rcases key with _ | k2
      · exact absurd rfl hkf
      · have hcomp : step s (Ev.submit (some k2) dt req obs) =
            some ((enqueueRequest s k2 dt req obs).1, []) := by
          simp [step, request, hkf]
        rw [hcomp] at hstep
        obtain ⟨hs1, -⟩ := some_pair_eq hstep
        rw [← hs1]
        intro dbi' hdbi'
        rw [enqueueRequest_dI] at hdbi'
        by_cases hk : k2 = k
        · subst hk
          rw [alookup_aset_self] at hdbi'
          injection hdbi' with h1
          left
          rw [← h1]
          simp
        · rw [alookup_aset_ne _ _ _ _ (fun e => hk e.symm)] at hdbi'
          exact ht dbi' hdbi'
  | fire tid =>
    rcases hfind : s.armed.find? (fun tm => tm.id = tid) with _ | tm
    · have hcomp : step s (Ev.fire tid) = some (s, []) := by
        simp [step, hfind]
      rw [hcomp] at hstep
      obtain ⟨hs1, -⟩ := some_pair_eq hstep
      rw [← hs1]
      exact ht
    · have hcomp : step s (Ev.fire tid) =
          flush { s with armed := s.armed.filter (fun x => x.id ≠ tid) }
            tm.key := by
        simp [step, hfind]
      rw [hcomp] at hstep
      exact flush_tidy _ _ tm.key k effs hstep ht
  | dnext k2 g v =>
    rcases hl : alookup s.debounceInfo k2 with _ | dbi
    · have hcomp : step s (Ev.dnext k2 g v) = some (s, []) := by
        simp [step, hl]
      rw [hcomp] at hstep
      obtain ⟨hs1, -⟩ := some_pair_eq hstep
      rw [← hs1]
      exact ht
    · rcases ho : alookup dbi.runningSubscriptions g with _ | rsub
      · have hcomp : step s (Ev.dnext k2 g v) = some (s, []) := by
          simp [step, hl, ho]
        rw [hcomp] at hstep
        obtain ⟨hs1, -⟩ := some_pair_eq hstep
        rw [← hs1]
        exact ht
      · have hcomp : step s (Ev.dnext k2 g v) =
            some (s, onNext rsub.snapshot v) := by
          simp [step, hl, ho]
        rw [hcomp] at hstep
        obtain ⟨hs1, -⟩ := some_pair_eq hstep
        rw [← hs1]
        exact ht
  | derror k2 g e =>
    rcases hl : alookup s.debounceInfo k2 with _ | dbi
    · have hcomp : step s (Ev.derror k2 g e) = some (s, []) := by
        simp [step, hl]
      rw [hcomp] at hstep
      obtain ⟨hs1, -⟩ := some_pair_eq hstep
      rw [← hs1]
      exact ht
    · rcases ho : alookup dbi.runningSubscriptions g with _ | rsub
      · have hcomp : step s (Ev.derror k2 g e) = some (s, []) := by
          simp [step, hl, ho]
        rw [hcomp] at hstep
        obtain ⟨hs1, -⟩ := some_pair_eq hstep
        rw [← hs1]
        exact ht
      · have hcomp : step s (Ev.derror k2 g e) =
            some (cleanup s k2 g, rsub.snapshot.map (fun o => Effect.error o e)) := by
          simp [step, hl, ho, onError]
        rw [hcomp] at hstep
        obtain ⟨hs1, -⟩ := some_pair_eq hstep
        rw [← hs1]
        exact cleanup_tidy s k2 k g ht
  | dcomplete k2 g =>
    rcases hl : alookup s.debounceInfo k2 with _ | dbi
    · have hcomp : step s (Ev.dcomplete k2 g) = some (s, []) := by
        simp [step, hl]
      rw [hcomp] at hstep
      obtain ⟨hs1, -⟩ := some_pair_eq hstep
      rw [← hs1]
      exact ht
    · rcases ho : alookup dbi.runningSubscriptions g with _ | rsub
      · have hcomp : step s (Ev.dcomplete k2 g) = some (s, []) := by
          simp [step, hl, ho]
        rw [hcomp] at hstep
        obtain ⟨hs1, -⟩ := some_pair_eq hstep
        rw [← hs1]
        exact ht
      · have hcomp : step s (Ev.dcomplete k2 g) =
            some (cleanup s k2 g, rsub.snapshot.map (fun o => Effect.complete o)) := by
          simp [step, hl, ho, onComplete]
        rw [hcomp] at hstep
        obtain ⟨hs1, -⟩ := some_pair_eq hstep
        rw [← hs1]
        exact cleanup_tidy s k2 k g ht
  | cancelG k2 g o =>
    have hcomp : step s (Ev.cancelG k2 g o) =
        some ((unsubscribe s k2 g o).1, (unsubscribe s k2 g o).2) := rfl
    rw [hcomp] at hstep
    obtain ⟨hs1, -⟩ := some_pair_eq hstep
    rw [← hs1]
    exact unsubscribe_tidy s k2 k g o ht

/-! ### Claim C6 -/

/-- C6: a group record is deleted exactly when both of its collections are
empty.  (1) `cleanup` — the only place that deletes — deletes iff, after
removing the generation's running entry, `runningSubscriptions` and
`queuedObservers` are both empty; (2) `enqueueRequest` never deletes;
(3) a successful `flush` never deletes; (4) a cancellation deletes only
when the observer removal leaves the queue empty and the generation
removal leaves no running entry; (5) every event step preserves tidiness:
no step leaves an idle group record behind. -/
theorem claim6_deletion_iff_empty :
    (∀ (s : DState) (k : String) (g : Nat) (dbi : DebounceMetadata),
       alookup s.debounceInfo k = some dbi →
       (alookup (cleanup s k g).debounceInfo k = none ↔
         aerase dbi.runningSubscriptions g = [] ∧ dbi.queuedObservers = [])) ∧
    (∀ (s : DState) (k : String) (dt : Option Nat) (req : Request) (obs : Nat),
       (alookup (enqueueRequest s k dt req obs).1.debounceInfo k).isSome) ∧
    (∀ (s s1 : DState) (k : String) (effs : List Effect),
       flush s k = some (s1, effs) →
       (alookup s1.debounceInfo k).isSome) ∧
    (∀ (s : DState) (k : String) (g o : Nat) (dbi : DebounceMetadata),
       alookup s.debounceInfo k = some dbi →
       alookup (unsubscribe s k g o).1.debounceInfo k = none →
       dbi.queuedObservers.filter (fun x => x ≠ o) = [] ∧
         aerase dbi.runningSubscriptions g = []) ∧
    (∀ (s s1 : DState) (ev : Ev) (effs : List Effect) (k : String),
       step s ev = some (s1, effs) → tidy s k → tidy s1 k) := by
  refine ⟨cleanup_deletes_iff, ?_, ?_, ?_, step_tidy⟩
  · intro s k dt req obs
    rw [enqueueRequest_dI, alookup_aset_self]
    rfl
  · intro s s1 k effs hf
    rcases hl : alookup s.debounceInfo k with _ | dbi
    · rw [flush] at hf
      rw [hl] at hf
      exact absurd hf (by simp)
    · rcases hlr : dbi.lastRequest with _ | req
      · rw [flush_noop_eq s k dbi hl (Or.inr hlr)] at hf
        obtain ⟨hs1, -⟩ := some_pair_eq hf
        rw [← hs1, hl]
        rfl
      · by_cases hq : dbi.queuedObservers = []
        · rw [flush_noop_eq s k dbi hl (Or.inl hq)] at hf
          obtain ⟨hs1, -⟩ := some_pair_eq hf
          rw [← hs1, hl]
          rfl
        · rw [flush_run_eq s k dbi req hl hq hlr] at hf
          obtain ⟨hs1, -⟩ := some_pair_eq hf
          rw [← hs1, alookup_aset_self]
          rfl
  · intro s k g o dbi h hnone
    by_cases hg : g = dbi.currentGroupId
    · by_cases hq : dbi.queuedObservers.filter (fun x => x ≠ o) = []
      · refine ⟨hq, ?_⟩
        rw [unsubscribe_pending_empty s k g o dbi h hg hq] at hnone
        have h2 :=
          (cleanup_deletes_iff _ k g _ (alookup_aset_self _ _ _)).mp hnone
        exact h2.1
      · rw [unsubscribe_pending_keep s k g o dbi h hg hq] at hnone
        rw [alookup_aset_self] at hnone
        exact absurd hnone (by simp)
    · rcases ho : alookup dbi.runningSubscriptions g with _ | og
      · rw [unsubscribe_running_absent s k g o dbi h hg ho] at hnone
        rw [h] at hnone
        exact absurd hnone (by simp)
      · by_cases hoe : og.observers.filter (fun x => x ≠ o) = []
        · rw [unsubscribe_running_empty s k g o dbi og h hg ho hoe] at hnone
          have h2 :=
            (cleanup_deletes_iff _ k g _ (alookup_aset_self _ _ _)).mp hnone
          have h3 := h2.1
          rw [aerase_aset_self] at h3
          have h4 := h2.2
          refine ⟨?_, h3⟩
          rw [show dbi.queuedObservers = [] from h4]
          rfl
        · rw [unsubscribe_running_keep s k g o dbi og h hg ho hoe] at hnone
          rw [alookup_aset_self] at hnone
          exact absurd hnone (by simp)

/-- C6 witness. -/
theorem claim6_deletion_iff_empty_witness :
    (alookup
        (cleanup
            { debounceInfo :=
                [("k",
                  { timeout := some 0
                    runningSubscriptions := [(0, ⟨[], 3, [7]⟩)]
                    queuedObservers := []
                    currentGroupId := 1
                    lastRequest := some ⟨1, 2⟩ })]
              armed := []
              nextTimerId := 1
              nextSubId := 4
              activeDirect := []
              defaultDelay := 500 } "k" 0).debounceInfo "k" = none ↔
      aerase [(0, (⟨[], 3, [7]⟩ : RunningSub))] 0 = [] ∧
        ([] : List Nat) = []) ∧
    tidy (mkState 500) "k" :=
  ⟨claim6_deletion_iff_empty.1
      { debounceInfo :=
          [("k",
            { timeout := some 0
              runningSubscriptions := [(0, ⟨[], 3, [7]⟩)]
              queuedObservers := []
              currentGroupId := 1
              lastRequest := some ⟨1, 2⟩ })]
        armed := []
        nextTimerId := 1
        nextSubId := 4
        activeDirect := []
        defaultDelay := 500 } "k" 0
      { timeout := some 0
        runningSubscriptions := [(0, ⟨[], 3, [7]⟩)]
        queuedObservers := []
        currentGroupId := 1
        lastRequest := some ⟨1, 2⟩ } (by decide),
   claim6_deletion_iff_empty.2.2.2.2 (mkState 500) (mkState 500)
     (Ev.dnext "k" 0 0) [] "k" rfl (fun dbi hdbi => absurd hdbi (by simp [mkState, alookup]))⟩

/-! ### Generation-counter lemmas -/

theorem cleanup_gid (s : DState) (k' k : String) (g : Nat)
    (dbi dbi' : DebounceMetadata)
    (h : alookup s.debounceInfo k = some dbi)
    (h' : alookup (cleanup s k' g).debounceInfo k = some dbi') :
    dbi'.currentGroupId = dbi.currentGroupId := by
  by_cases hk : k = k'
  · subst hk
    by_cases hc : aerase dbi.runningSubscriptions g = [] ∧ dbi.queuedObservers = []
    · rw [cleanup_delete s k g dbi h hc.1 hc.2] at h'
      rw [alookup_aerase_self] at h'
      exact absurd h' (by simp)
    · rw [cleanup_keep s k g dbi h hc] at h'
      rw [alookup_aset_self] at h'
      injection h' with h1
      rw [← h1]
  · rw [cleanup_other s k k' g hk] at h'
    rw [h] at h'
    injection h' with h1
    rw [← h1]

theorem unsubscribe_gid (s : DState) (k' k : String) (g o : Nat)
    (dbi dbi' : DebounceMetadata)
    (h : alookup s.debounceInfo k = some dbi)
    (h' : alookup (unsubscribe s k' g o).1.debounceInfo k = some dbi') :
    dbi'.currentGroupId = dbi.currentGroupId := by
  by_cases hk : k = k'
  · subst hk
    by_cases hg : g = dbi.currentGroupId
    · by_cases hq : dbi.queuedObservers.filter (fun x => x ≠ o) = []
      · rw [unsubscribe_pending_empty s k g o dbi h hg hq] at h'
        exact cleanup_gid _ k k g { dbi with queuedObservers := [] } dbi'
          (alookup_aset_self _ _ _) h'
      · rw [unsubscribe_pending_keep s k g o dbi h hg hq] at h'
        rw [alookup_aset_self] at h'
        injection h' with h1
        rw [← h1]
    · rcases ho : alookup dbi.runningSubscriptions g with _ | og
      · rw [unsubscribe_running_absent s k g o dbi h hg ho] at h'
        rw [h] at h'
        injection h' with h1
        rw [← h1]
      · by_cases hoe : og.observers.filter (fun x => x ≠ o) = []
        · rw [unsubscribe_running_empty s k g o dbi og h hg ho hoe] at h'
          exact cleanup_gid _ k k g
            { dbi with
                runningSubscriptions :=
                  aset dbi.runningSubscriptions g { og with observers := [] } }
            dbi' (alookup_aset_self _ _ _) h'
        · rw [unsubscribe_running_keep s k g o dbi og h hg ho hoe] at h'
          rw [alookup_aset_self] at h'
          injection h' with h1
          rw [← h1]
  · rw [unsubscribe_other s k k' g o hk] at h'
    rw [h] at h'
    injection h' with h1
    rw [← h1]

/-! ### Claim C8 (corrected) -/

/-- C8 counterexample: for key "k", a first burst is flushed under
generation 0; the downstream call completes, cleanup deletes the group;
a second submission recreates the group with `currentGroupId = 0`, and
its flush files the second batch under generation 0 again.  Two distinct
flushed batches of the same key (downstream subscriptions 0 and 1) share
the generation id 0, so the ids are not strictly increasing across the
whole lifetime of the key. -/
theorem claim8_generation_reset :
    (run (mkState 500)
        [Ev.submit (some "k") none ⟨1, 1⟩ 10, Ev.fire 0]).map
      (fun r =>
        (alookup r.1.debounceInfo "k").map
          (fun dbi =>
            (dbi.runningSubscriptions.map Prod.fst, dbi.currentGroupId))) =
      some (some ([0], 1)) ∧
    (run (mkState 500)
        [Ev.submit (some "k") none ⟨1, 1⟩ 10, Ev.fire 0,
         Ev.dcomplete "k" 0,
         Ev.submit (some "k") none ⟨2, 2⟩ 11, Ev.fire 1]).map
      (fun r =>
        ((alookup r.1.debounceInfo "k").map
          (fun dbi =>
            (dbi.runningSubscriptions.map Prod.fst, dbi.currentGroupId)),
         r.2)) =
      some
        (some ([0], 1),
         [Effect.fwd "k" ⟨1, 1⟩ 0, Effect.complete 10,
          Effect.fwd "k" ⟨2, 2⟩ 1]) := by decide

/-- C8 (amended): within a single lifetime of a group record the
generation counter is strictly monotone: a successful flush of a
non-empty batch increments `currentGroupId` by exactly one, enqueueing
preserves it (and initializes it to 0 when the group is created), and
cleanup/cancellation never change it while the record persists.  The
strict increase does not span group deletions: once the key goes idle and
its record is deleted, a recreated group restarts at generation 0. -/
theorem claim8_generation_monotone :
    (∀ (s : DState) (k : String) (dbi : DebounceMetadata) (req : Request),
       alookup s.debounceInfo k = some dbi →
       dbi.queuedObservers ≠ [] → dbi.lastRequest = some req →
       (flush s k).map
           (fun r =>
             (alookup r.1.debounceInfo k).map (fun d => d.currentGroupId)) =
         some (some (dbi.currentGroupId + 1))) ∧
    (∀ (s : DState) (k : String) (dt : Option Nat) (req : Request) (obs : Nat),
       (alookup (enqueueRequest s k dt req obs).1.debounceInfo k).map
           (fun d => d.currentGroupId) =
         some (((alookup s.debounceInfo k).getD freshMetadata).currentGroupId)) ∧
    (∀ (s : DState) (k' k : String) (g : Nat) (dbi dbi' : DebounceMetadata),
       alookup s.debounceInfo k = some dbi →
       alookup (cleanup s k' g).debounceInfo k = some dbi' →
       dbi'.currentGroupId = dbi.currentGroupId) ∧
    (∀ (s : DState) (k' k : String) (g o : Nat) (dbi dbi' : DebounceMetadata),
       alookup s.debounceInfo k = some dbi →
       alookup (unsubscribe s k' g o).1.debounceInfo k = some dbi' →
       dbi'.currentGroupId = dbi.currentGroupId) := by
  refine ⟨?_, ?_, cleanup_gid, unsubscribe_gid⟩
  · intro s k dbi req h hq hr
    rw [flush_run_eq s k dbi req h hq hr]
    simp [alookup_aset_self]
  · intro s k dt req obs
    rw [enqueueRequest_dI, alookup_aset_self]
    rfl

/-- C8 witness. -/
theorem claim8_generation_monotone_witness :
    (flush
        { debounceInfo :=
            [("k",
              { timeout := some 5
                runningSubscriptions := []
                queuedObservers := [7]
                currentGroupId := 4
                lastRequest := some ⟨1, 2⟩ })]
          armed := []
          nextTimerId := 6
          nextSubId := 0
          activeDirect := []
          defaultDelay := 500 } "k").map
      (fun r =>
        (alookup r.1.debounceInfo "k").map (fun d => d.currentGroupId)) =
    some (some 5) :=
  claim8_generation_monotone.1
    { debounceInfo :=
        [("k",
          { timeout := some 5
            runningSubscriptions := []
            queuedObservers := [7]
            currentGroupId := 4
            lastRequest := some ⟨1, 2⟩ })]
      armed := []
      nextTimerId := 6
      nextSubId := 0
      activeDirect := []
      defaultDelay := 500 } "k"
    { timeout := some 5
      runningSubscriptions := []
      queuedObservers := [7]
      currentGroupId := 4
      lastRequest := some ⟨1, 2⟩ } ⟨1, 2⟩ (by decide) (by decide) rfl

/-! ### Burst lemmas: repeated submissions to one key -/

theorem filter_ne_id_append_last (B : List Timer) (t : Nat) (k : String)
    (d : Nat) (hB : ∀ tm ∈ B, tm.id ≠ t) :
    (B ++ [Timer.mk t k d]).filter (fun tm => tm.id ≠ t) = B := by
  induction B with
  | nil => simp
  | cons b rest ih =>
    have hb : b.id ≠ t := hB b (by simp)
    have hrest : ∀ tm ∈ rest, tm.id ≠ t := fun tm htm => hB tm (by simp [htm])
    simp [hb, ih hrest]
    intro a ha
    exact hrest a ha

theorem find?_id_append_last (B : List Timer) (t : Nat) (k : String)
    (d : Nat) (hB : ∀ tm ∈ B, tm.id ≠ t) :
    (B ++ [Timer.mk t k d]).find? (fun tm => tm.id = t) =
      some (Timer.mk t k d) := by
  induction B with
  | nil => simp [List.find?]
  | cons b rest ih =>
    have hb : b.id ≠ t := hB b (by simp)
    have hrest : ∀ tm ∈ rest, tm.id ≠ t := fun tm htm => hB tm (by simp [htm])
    simp only [List.cons_append, List.find?]
    rw [show (decide (b.id = t)) = false by simp [hb]]
    exact ih hrest

theorem step_submit_keyed (s : DState) (k : String) (hk : k ≠ "")
    (dt : Option Nat) (req : Request) (obs : Nat) :
    step s (Ev.submit (some k) dt req obs) =
      some ((enqueueRequest s k dt req obs).1, []) := by
  have hkf : keyFalsy (some k) = false := by simp [keyFalsy, hk]
  simp [step, request, hkf]

theorem enqueueRequest_shaped (s : DState) (k : String) (dt : Option Nat)
    (req : Request) (obs : Nat) (t d : Nat) (B : List Timer)
    (rs : List (Nat × RunningSub)) (q : List Nat) (g : Nat) (r : Request)
    (hl : alookup s.debounceInfo k =
      some
        { timeout := some t
          runningSubscriptions := rs
          queuedObservers := q
          currentGroupId := g
          lastRequest := some r })
    (harm : s.armed = B ++ [Timer.mk t k d])
    (hB : ∀ tm ∈ B, tm.id ≠ t) :
    (enqueueRequest s k dt req obs).1 =
      { s with
          debounceInfo :=
            aset s.debounceInfo k
              { timeout := some s.nextTimerId
                runningSubscriptions := rs
                queuedObservers := q ++ [obs]
                currentGroupId := g
                lastRequest := some req }
          armed := B ++ [Timer.mk s.nextTimerId k (delayOf dt s.defaultDelay)]
          nextTimerId := s.nextTimerId + 1 } := by
  simp [enqueueRequest, hl, clearTimer, harm,
    filter_ne_id_append_last B t k d hB]
  intro a ha
  exact hB a ha

/-- Shape of the state after a back-to-back burst of keyed submissions:
the queue accumulates the observers in order, `lastRequest` is the last
payload, the generation and the running entries are untouched, exactly
one timer for the key is armed (the one set by the last submission), and
no downstream call is made. -/
theorem runBurst_shape (k : String) (hk : k ≠ "") :
    ∀ (subs : List Submission) (s : DState) (t d : Nat) (B : List Timer)
      (rs : List (Nat × RunningSub)) (q : List Nat) (g : Nat) (r : Request),
      alookup s.debounceInfo k =
        some
          { timeout := some t
            runningSubscriptions := rs
            queuedObservers := q
            currentGroupId := g
            lastRequest := some r } →
      s.armed = B ++ [Timer.mk t k d] →
      (∀ tm ∈ B, tm.id < t ∧ tm.key ≠ k) →
      t + 1 = s.nextTimerId →
      ∃ (s' : DState) (t' d' : Nat) (B' : List Timer),
        run s (submitEvs k subs) = some (s', []) ∧
        alookup s'.debounceInfo k =
          some
            { timeout := some t'
              runningSubscriptions := rs
              queuedObservers := q ++ subs.map (fun x => x.obs)
              currentGroupId := g
              lastRequest := some (lastReq r subs) } ∧
        s'.armed = B' ++ [Timer.mk t' k d'] ∧
        (∀ tm ∈ B', tm.id < t' ∧ tm.key ≠ k) ∧
        t' + 1 = s'.nextTimerId ∧
        s'.nextSubId = s.nextSubId ∧
        s'.nextTimerId = s.nextTimerId + subs.length ∧
        s'.defaultDelay = s.defaultDelay := by
  intro subs
  induction subs with
  | nil =>
    intro s t d B rs q g r hl harm hB ht
    refine ⟨s, t, d, B, rfl, ?_, harm, hB, ht, rfl, rfl, rfl⟩
    simpa using hl
  | cons sb rest ih =>
    intro s t d B rs q g r hl harm hB ht
    have henq := enqueueRequest_shaped s k sb.dt sb.req sb.obs t d B rs q g r
      hl harm (fun tm htm => Nat.ne_of_lt (hB tm htm).1)
    have hstep : step s (Ev.submit (some k) sb.dt sb.req sb.obs) =
        some
          ({ s with
              debounceInfo :=
                aset s.debounceInfo k
                  { timeout := some s.nextTimerId
                    runningSubscriptions := rs
                    queuedObservers := q ++ [sb.obs]
                    currentGroupId := g
                    lastRequest := some sb.req }
              armed :=
                B ++ [Timer.mk s.nextTimerId k (delayOf sb.dt s.defaultDelay)]
              nextTimerId := s.nextTimerId + 1 }, []) := by
      rw [step_submit_keyed s k hk sb.dt sb.req sb.obs, henq]
    obtain ⟨s', t', d', B', hrun, hl', harm', hB', ht', hsub', htid', hdd'⟩ :=
      ih
        { s with
            debounceInfo :=
              aset s.debounceInfo k
                { timeout := some s.nextTimerId
                  runningSubscriptions := rs
                  queuedObservers := q ++ [sb.obs]
                  currentGroupId := g
                  lastRequest := some sb.req }
            armed :=
              B ++ [Timer.mk s.nextTimerId k (delayOf sb.dt s.defaultDelay)]
            nextTimerId := s.nextTimerId + 1 }
        s.nextTimerId (delayOf sb.dt s.defaultDelay) B rs (q ++ [sb.obs]) g
        sb.req (alookup_aset_self _ _ _) rfl
        (fun tm htm =>
          ⟨Nat.lt_trans (hB tm htm).1 (by omega), (hB tm htm).2⟩)
        rfl
    refine ⟨s', t', d', B', ?_, ?_, harm', hB', ht', ?_, ?_, hdd'⟩
    · have hevs : submitEvs k (sb :: rest) =
          Ev.submit (some k) sb.dt sb.req sb.obs :: submitEvs k rest := rfl
      rw [hevs]
      simp only [run, hstep, hrun, List.nil_append]
    · have hq2 : (q ++ [sb.obs]) ++ rest.map (fun x => x.obs) =
          q ++ (sb :: rest).map (fun x => x.obs) := by simp
      rw [hq2] at hl'
      exact hl'
    · exact hsub'
    · rw [htid']
      simp
      omega

theorem run_append (l1 : List Ev) :
    ∀ (s s1 : DState) (e1 : List Effect) (l2 : List Ev),
      run s l1 = some (s1, e1) →
      run s (l1 ++ l2) = (run s1 l2).map (fun r2 => (r2.1, e1 ++ r2.2)) := by
  induction l1 with
  | nil =>
    intro s s1 e1 l2 h
    rw [run] at h
    obtain ⟨hs, he⟩ := some_pair_eq h
    subst hs
    subst he
    rw [List.nil_append]
    rcases run s l2 with _ | r2
    · rfl
    · rfl
  | cons e rest ih =>
    intro s s1 e1 l2 h
    rcases hstep : step s e with _ | p
    · rw [run, hstep] at h
      exact absurd h (by simp)
    · obtain ⟨sm, em⟩ := p
      rcases hrest : run sm rest with _ | r
      · rw [run, hstep] at h
        simp only [hrest] at h
        exact absurd h (by simp)
      · obtain ⟨sr, er⟩ := r
        rw [run, hstep] at h
        simp only [hrest] at h
        obtain ⟨hs, he⟩ := some_pair_eq h
        rw [show (e :: rest) ++ l2 = e :: (rest ++ l2) from rfl]
        rw [run, hstep]
        simp only [ih sm sr er l2 hrest]
        rcases hl2 : run sr l2 with _ | r2
        · rw [← hs, hl2]
          rfl
        · obtain ⟨s2, e2⟩ := r2
          rw [← hs, hl2]
          simp [← he]

theorem enqueueRequest_first (s : DState) (k : String) (dt : Option Nat)
    (req : Request) (obs : Nat)
    (hfresh : timersOk s) (hnok : ∀ tm ∈ s.armed, tm.key ≠ k)
    (hnp : noPending s k) :
    ∃ (B : List Timer) (rs : List (Nat × RunningSub)) (g : Nat),
      (enqueueRequest s k dt req obs).1 =
        { s with
            debounceInfo :=
              aset s.debounceInfo k
                { timeout := some s.nextTimerId
                  runningSubscriptions := rs
                  queuedObservers := [obs]
                  currentGroupId := g
                  lastRequest := some req }
            armed :=
              B ++ [Timer.mk s.nextTimerId k (delayOf dt s.defaultDelay)]
            nextTimerId := s.nextTimerId + 1 } ∧
      (∀ tm ∈ B, tm.id < s.nextTimerId ∧ tm.key ≠ k) ∧
      rs = ((alookup s.debounceInfo k).getD freshMetadata).runningSubscriptions ∧
      g = ((alookup s.debounceInfo k).getD freshMetadata).currentGroupId := by
  rcases hl : alookup s.debounceInfo k with _ | dbi0
  · refine ⟨s.armed, [], 0, ?_, ?_, rfl, rfl⟩
    · simp [enqueueRequest, hl, freshMetadata]
    · exact fun tm htm => ⟨hfresh tm htm, hnok tm htm⟩
  · have hq0 : dbi0.queuedObservers = [] := hnp dbi0 hl
    rcases hto : dbi0.timeout with _ | t0
    · refine ⟨s.armed, dbi0.runningSubscriptions, dbi0.currentGroupId,
        ?_, ?_, rfl, rfl⟩
      · simp [enqueueRequest, hl, hto, hq0]
      · exact fun tm htm => ⟨hfresh tm htm, hnok tm htm⟩
    · refine ⟨s.armed.filter (fun tm => tm.id ≠ t0), dbi0.runningSubscriptions,
        dbi0.currentGroupId, ?_, ?_, rfl, rfl⟩
      · simp [enqueueRequest, hl, hto, hq0, clearTimer]
      · intro tm htm
        have hmem := List.mem_of_mem_filter htm
        exact ⟨hfresh tm hmem, hnok tm hmem⟩

theorem dnext_run (s : DState) (k : String) (g : Nat)
    (dbi : DebounceMetadata) (rsub : RunningSub)
    (hl : alookup s.debounceInfo k = some dbi)
    (ho : alookup dbi.runningSubscriptions g = some rsub) :
    ∀ vs : List Nat,
      run s (vs.map (fun v => Ev.dnext k g v)) =
        some (s, fanNext rsub.snapshot vs) := by
  intro vs
  induction vs with
  | nil => simp [run, fanNext]
  | cons v vs ihv =>
    rw [show ((v :: vs).map fun v => Ev.dnext k g v) =
      Ev.dnext k g v :: (vs.map fun v => Ev.dnext k g v) from rfl]
    have hstepd : step s (Ev.dnext k g v) =
        some (s, onNext rsub.snapshot v) := by
      simp [step, hl, ho]
    simp only [run, hstepd, ihv, fanNext]

theorem derror_run (s : DState) (k : String) (g : Nat)
    (dbi : DebounceMetadata) (rsub : RunningSub)
    (hl : alookup s.debounceInfo k = some dbi)
    (ho : alookup dbi.runningSubscriptions g = some rsub) (e : Nat) :
    (run s [Ev.derror k g e]).map (fun r2 => r2.2) =
      some (rsub.snapshot.map (fun o => Effect.error o e)) := by
  have hstepe : step s (Ev.derror k g e) =
      some (cleanup s k g, rsub.snapshot.map (fun o => Effect.error o e)) := by
    simp [step, hl, ho, onError]
  simp [run, hstepe]

theorem dcomplete_run (s : DState) (k : String) (g : Nat)
    (dbi : DebounceMetadata) (rsub : RunningSub)
    (hl : alookup s.debounceInfo k = some dbi)
    (ho : alookup dbi.runningSubscriptions g = some rsub) :
    (run s [Ev.dcomplete k g]).map (fun r2 => r2.2) =
      some (rsub.snapshot.map (fun o => Effect.complete o)) := by
  have hstepe : step s (Ev.dcomplete k g) =
      some (cleanup s k g, rsub.snapshot.map (fun o => Effect.complete o)) := by
    simp [step, hl, ho, onComplete]
  simp [run, hstepe]

/-! ### Claim C1 -/

/-- C1: for a burst of two or more submissions to one key, each arriving
before the previous debounce window elapses (no timer fires in between),
no downstream call is made during the burst; when the window of the last
submission elapses (its timer — the only armed one for the key — fires),
exactly one downstream call is made, carrying the payload of the last
submission; and every downstream data/error/completion event of that call
is fanned out to every submitter's callbacks, identically per event and in
the order the observers joined the batch. -/
theorem claim1_burst_coalesces
    (s0 : DState) (k : String) (sb : Submission) (rest : List Submission)
    (hk : k ≠ "") (_hrest : rest ≠ [])
    (hfresh : timersOk s0)
    (hnok : ∀ tm ∈ s0.armed, tm.key ≠ k)
    (hnp : noPending s0 k) :
    ∃ (s1 : DState) (g : Nat),
      run s0 (submitEvs k (sb :: rest) ++
          [Ev.fire (s0.nextTimerId + rest.length)]) =
        some (s1, [Effect.fwd k (lastReq sb.req rest) s0.nextSubId]) ∧
      (∃ dbi1, alookup s1.debounceInfo k = some dbi1 ∧
        alookup dbi1.runningSubscriptions g =
          some ⟨burstObs sb rest, s0.nextSubId, burstObs sb rest⟩) ∧
      (∀ vs : List Nat,
        run s1 (vs.map (fun v => Ev.dnext k g v)) =
          some (s1, fanNext (burstObs sb rest) vs)) ∧
      (∀ e, (run s1 [Ev.derror k g e]).map (fun r2 => r2.2) =
        some ((burstObs sb rest).map (fun o => Effect.error o e))) ∧
      ((run s1 [Ev.dcomplete k g]).map (fun r2 => r2.2) =
        some ((burstObs sb rest).map (fun o => Effect.complete o))) := by
  obtain ⟨B0, rs0, g, henq, hB0, -⟩ :=
    enqueueRequest_first s0 k sb.dt sb.req sb.obs hfresh hnok hnp
  set s1lit : DState :=
    { s0 with
        debounceInfo :=
          aset s0.debounceInfo k
            { timeout := some s0.nextTimerId
              runningSubscriptions := rs0
              queuedObservers := [sb.obs]
              currentGroupId := g
              lastRequest := some sb.req }
        armed :=
          B0 ++ [Timer.mk s0.nextTimerId k (delayOf sb.dt s0.defaultDelay)]
        nextTimerId := s0.nextTimerId + 1 } with hs1def
  have hstep1 : step s0 (Ev.submit (some k) sb.dt sb.req sb.obs) =
      some (s1lit, []) := by
    rw [step_submit_keyed s0 k hk sb.dt sb.req sb.obs, henq]
  obtain ⟨s', t', d', B', hrun', hl', harm', hB', ht', hsub', htid', hdd'⟩ :=
    runBurst_shape k hk rest s1lit s0.nextTimerId
      (delayOf sb.dt s0.defaultDelay) B0 rs0 [sb.obs] g sb.req
      (by rw [hs1def]; exact alookup_aset_self _ _ _)
      (by rw [hs1def]) hB0 (by rw [hs1def])
  have hns : s'.nextSubId = s0.nextSubId := by
    rw [hsub', hs1def]
  have htv : t' = s0.nextTimerId + rest.length := by
    have h2 : s1lit.nextTimerId = s0.nextTimerId + 1 := by rw [hs1def]
    omega
  have hrun01 : run s0 (submitEvs k (sb :: rest)) = some (s', []) := by
    rw [show submitEvs k (sb :: rest) =
      Ev.submit (some k) sb.dt sb.req sb.obs :: submitEvs k rest from rfl]
    simp only [run, hstep1, hrun', List.nil_append]
  have hql : [sb.obs] ++ rest.map (fun x => x.obs) = burstObs sb rest := rfl
  rw [hql] at hl'
  have hBne : ∀ tm ∈ B', tm.id ≠ t' :=
    fun tm htm => Nat.ne_of_lt (hB' tm htm).1
  have hfind : s'.armed.find? (fun tm => tm.id = t') =
      some (Timer.mk t' k d') := by
    rw [harm']
    exact find?_id_append_last B' t' k d' hBne
  have hfilter : s'.armed.filter (fun x => x.id ≠ t') = B' := by
    rw [harm']
    exact filter_ne_id_append_last B' t' k d' hBne
  have hstepf : step s' (Ev.fire t') = flush { s' with armed := B' } k := by
    simp only [step, hfind, hfilter]
  have hflush2 : flush { s' with armed := B' } k =
      some
        ({ debounceInfo :=
             aset s'.debounceInfo k
               { timeout := some t'
                 runningSubscriptions :=
                   aset rs0 g
                     ⟨burstObs sb rest, s'.nextSubId, burstObs sb rest⟩
                 queuedObservers := []
                 currentGroupId := g + 1
                 lastRequest := some (lastReq sb.req rest) }
           armed := B'
           nextTimerId := s'.nextTimerId
           nextSubId := s'.nextSubId + 1
           activeDirect := s'.activeDirect
           defaultDelay := s'.defaultDelay },
         [Effect.fwd k (lastReq sb.req rest) s'.nextSubId]) :=
    flush_run_eq { s' with armed := B' } k
      { timeout := some t'
        runningSubscriptions := rs0
        queuedObservers := burstObs sb rest
        currentGroupId := g
        lastRequest := some (lastReq sb.req rest) }
      (lastReq sb.req rest) hl' (by simp [burstObs]) rfl
  have hrunfire : run s' [Ev.fire t'] =
      some
        ({ debounceInfo :=
             aset s'.debounceInfo k
               { timeout := some t'
                 runningSubscriptions :=
                   aset rs0 g
                     ⟨burstObs sb rest, s'.nextSubId, burstObs sb rest⟩
                 queuedObservers := []
                 currentGroupId := g + 1
                 lastRequest := some (lastReq sb.req rest) }
           armed := B'
           nextTimerId := s'.nextTimerId
           nextSubId := s'.nextSubId + 1
           activeDirect := s'.activeDirect
           defaultDelay := s'.defaultDelay },
         [Effect.fwd k (lastReq sb.req rest) s'.nextSubId]) := by
    simp only [run, hstepf, hflush2, List.append_nil]
  have htotal : run s0
      (submitEvs k (sb :: rest) ++ [Ev.fire t']) =
      some
        ({ debounceInfo :=
             aset s'.debounceInfo k
               { timeout := some t'
                 runningSubscriptions :=
                   aset rs0 g
                     ⟨burstObs sb rest, s'.nextSubId, burstObs sb rest⟩
                 queuedObservers := []
                 currentGroupId := g + 1
                 lastRequest := some (lastReq sb.req rest) }
           armed := B'
           nextTimerId := s'.nextTimerId
           nextSubId := s'.nextSubId + 1
           activeDirect := s'.activeDirect
           defaultDelay := s'.defaultDelay },
         [Effect.fwd k (lastReq sb.req rest) s'.nextSubId]) := by
    rw [run_append (submitEvs k (sb :: rest)) s0 s' [] [Ev.fire t'] hrun01,
      hrunfire]
    simp
  rw [htv] at htotal
  rw [hns] at htotal
  refine ⟨_, g, htotal,
    ⟨{ timeout := some (s0.nextTimerId + rest.length)
       runningSubscriptions :=
         aset rs0 g ⟨burstObs sb rest, s0.nextSubId, burstObs sb rest⟩
       queuedObservers := []
       currentGroupId := g + 1
       lastRequest := some (lastReq sb.req rest) },
      alookup_aset_self _ _ _, alookup_aset_self _ _ _⟩,
    dnext_run _ k g
      { timeout := some (s0.nextTimerId + rest.length)
        runningSubscriptions :=
          aset rs0 g ⟨burstObs sb rest, s0.nextSubId, burstObs sb rest⟩
        queuedObservers := []
        currentGroupId := g + 1
        lastRequest := some (lastReq sb.req rest) }
      ⟨burstObs sb rest, s0.nextSubId, burstObs sb rest⟩
      (alookup_aset_self _ _ _) (alookup_aset_self _ _ _),
    fun e =>
      derror_run _ k g
        { timeout := some (s0.nextTimerId + rest.length)
          runningSubscriptions :=
            aset rs0 g ⟨burstObs sb rest, s0.nextSubId, burstObs sb rest⟩
          queuedObservers := []
          currentGroupId := g + 1
          lastRequest := some (lastReq sb.req rest) }
        ⟨burstObs sb rest, s0.nextSubId, burstObs sb rest⟩
        (alookup_aset_self _ _ _) (alookup_aset_self _ _ _) e,
    dcomplete_run _ k g
      { timeout := some (s0.nextTimerId + rest.length)
        runningSubscriptions :=
          aset rs0 g ⟨burstObs sb rest, s0.nextSubId, burstObs sb rest⟩
        queuedObservers := []
        currentGroupId := g + 1
        lastRequest := some (lastReq sb.req rest) }
      ⟨burstObs sb rest, s0.nextSubId, burstObs sb rest⟩
      (alookup_aset_self _ _ _) (alookup_aset_self _ _ _)⟩

/-- C1 witness: a two-submission burst on a fresh state. -/
theorem claim1_burst_coalesces_witness :
    ∃ (s1 : DState) (g : Nat),
      run (mkState 500)
          (submitEvs "k" [⟨none, ⟨1, 1⟩, 10⟩, ⟨none, ⟨2, 2⟩, 11⟩] ++
            [Ev.fire 1]) =
        some (s1, [Effect.fwd "k" ⟨2, 2⟩ 0]) ∧
      (∃ dbi1, alookup s1.debounceInfo "k" = some dbi1 ∧
        alookup dbi1.runningSubscriptions g =
          some ⟨[10, 11], 0, [10, 11]⟩) ∧
      (∀ vs : List Nat,
        run s1 (vs.map (fun v => Ev.dnext "k" g v)) =
          some (s1, fanNext [10, 11] vs)) ∧
      (∀ e, (run s1 [Ev.derror "k" g e]).map (fun r2 => r2.2) =
        some ([10, 11].map (fun o => Effect.error o e))) ∧
      ((run s1 [Ev.dcomplete "k" g]).map (fun r2 => r2.2) =
        some ([10, 11].map (fun o => Effect.complete o))) :=
  claim1_burst_coalesces (mkState 500) "k" ⟨none, ⟨1, 1⟩, 10⟩
    [⟨none, ⟨2, 2⟩, 11⟩] (by decide) (by decide)
    (fun tm htm => absurd htm (by simp [mkState]))
    (fun tm htm => absurd htm (by simp [mkState]))
    (fun dbi h => by simp [mkState, alookup] at h)

/-! ### Cancellation-run lemmas -/

theorem runCancels_absent (k : String) (g : Nat) :
    ∀ (cs : List Nat) (s : DState),
      alookup s.debounceInfo k = none →
      run s (cancelEvs k g cs) = some (s, []) := by
  intro cs
  induction cs with
  | nil => intro s _; rfl
  | cons c cs ih =>
    intro s h
    have hstepc : step s (Ev.cancelG k g c) = some (s, []) := by
      simp [step, unsubscribe_absent s k g c h]
    rw [show cancelEvs k g (c :: cs) =
      Ev.cancelG k g c :: cancelEvs k g cs from rfl]
    simp only [run, hstepc, ih s h, List.nil_append]

theorem flush_effects_key (s s1 : DState) (k : String) (effs : List Effect)
    (hf : flush s k = some (s1, effs)) :
    effs = [] ∨ ∃ req sid, effs = [Effect.fwd k req sid] := by
  rcases hl : alookup s.debounceInfo k with _ | dbi
  · rw [flush] at hf
    rw [hl] at hf
    exact absurd hf (by simp)
  · rcases hlr : dbi.lastRequest with _ | req
    · rw [flush_noop_eq s k dbi hl (Or.inr hlr)] at hf
      obtain ⟨-, he⟩ := some_pair_eq hf
      exact Or.inl he.symm
    · by_cases hq : dbi.queuedObservers = []
      · rw [flush_noop_eq s k dbi hl (Or.inl hq)] at hf
        obtain ⟨-, he⟩ := some_pair_eq hf
        exact Or.inl he.symm
      · rw [flush_run_eq s k dbi req hl hq hlr] at hf
        obtain ⟨-, he⟩ := some_pair_eq hf
        exact Or.inr ⟨req, s.nextSubId, he.symm⟩

theorem filter_ne_id_eq_self (B : List Timer) (t : Nat)
    (hB : ∀ tm ∈ B, tm.id ≠ t) :
    B.filter (fun tm => tm.id ≠ t) = B := by
  induction B with
  | nil => rfl
  | cons b rest ih =>
    have hb : b.id ≠ t := hB b (by simp)
    have hrest : ∀ tm ∈ rest, tm.id ≠ t := fun tm htm => hB tm (by simp [htm])
    simp [hb, ih hrest]
    intro a ha
    exact hrest a ha

/-- On a drained accumulating batch (queue already empty) whose group
record survives because running generations remain, a further
cancellation with the live generation is a complete no-op: the filter
removes nothing, cleanup keeps the record, and the already-disarmed
timer handle clears nothing. -/
theorem cancel_drained_noop (s : DState) (k : String) (g c t : Nat)
    (rs1 : List (Nat × RunningSub)) (r : Request)
    (hl : alookup s.debounceInfo k =
      some
        { timeout := some t
          runningSubscriptions := rs1
          queuedObservers := []
          currentGroupId := g
          lastRequest := some r })
    (hrs : rs1 ≠ [])
    (hidem : aerase rs1 g = rs1)
    (hself : aset s.debounceInfo k
        { timeout := some t
          runningSubscriptions := rs1
          queuedObservers := []
          currentGroupId := g
          lastRequest := some r } = s.debounceInfo)
    (htm : ∀ tm ∈ s.armed, tm.id ≠ t) :
    unsubscribe s k g c = (s, []) := by
  obtain ⟨m, ar, nt, ns, ad, dd⟩ := s
  replace hl : alookup m k =
      some
        { timeout := some t
          runningSubscriptions := rs1
          queuedObservers := []
          currentGroupId := g
          lastRequest := some r } := hl
  replace hself : aset m k
      { timeout := some t
        runningSubscriptions := rs1
        queuedObservers := []
        currentGroupId := g
        lastRequest := some r } = m := hself
  replace htm : ∀ tm ∈ ar, tm.id ≠ t := htm
  have huns := unsubscribe_pending_empty ⟨m, ar, nt, ns, ad, dd⟩ k g c
    { timeout := some t
      runningSubscriptions := rs1
      queuedObservers := []
      currentGroupId := g
      lastRequest := some r } hl rfl rfl
  rw [huns]
  show (cleanup
      (⟨aset m k
          { timeout := some t
            runningSubscriptions := rs1
            queuedObservers := []
            currentGroupId := g
            lastRequest := some r }, ar, nt, ns, ad, dd⟩ : DState) k g,
    ([] : List Effect)) = (⟨m, ar, nt, ns, ad, dd⟩, [])
  have hkeep := cleanup_keep
    (⟨aset m k
        { timeout := some t
          runningSubscriptions := rs1
          queuedObservers := []
          currentGroupId := g
          lastRequest := some r }, ar, nt, ns, ad, dd⟩ : DState) k g
    { timeout := some t
      runningSubscriptions := rs1
      queuedObservers := []
      currentGroupId := g
      lastRequest := some r } (alookup_aset_self _ _ _)
    (fun hx => hrs (hidem ▸ hx.1))
  rw [hkeep]
  simp [aset_aset_self, hidem, hself, clearTimer,
    filter_ne_id_eq_self ar t htm]
  intro a ha
  exact htm a ha

theorem runCancels_drained (k : String) (g : Nat) :
    ∀ (cs : List Nat) (s : DState) (t : Nat)
      (rs1 : List (Nat × RunningSub)) (r : Request),
      alookup s.debounceInfo k =
        some
          { timeout := some t
            runningSubscriptions := rs1
            queuedObservers := []
            currentGroupId := g
            lastRequest := some r } →
      rs1 ≠ [] →
      aerase rs1 g = rs1 →
      aset s.debounceInfo k
          { timeout := some t
            runningSubscriptions := rs1
            queuedObservers := []
            currentGroupId := g
            lastRequest := some r } = s.debounceInfo →
      (∀ tm ∈ s.armed, tm.id ≠ t) →
      run s (cancelEvs k g cs) = some (s, []) := by
  intro cs
  induction cs with
  | nil => intro s t rs1 r _ _ _ _ _; rfl
  | cons c cs ih =>
    intro s t rs1 r hl hrs hidem hself htm
    have hstepc : step s (Ev.cancelG k g c) = some (s, []) := by
      have h1 : step s (Ev.cancelG k g c) = some (unsubscribe s k g c) := rfl
      rw [h1, cancel_drained_noop s k g c t rs1 r hl hrs hidem hself htm]
    rw [show cancelEvs k g (c :: cs) =
      Ev.cancelG k g c :: cancelEvs k g cs from rfl]
    simp only [run, hstepc, ih s t rs1 r hl hrs hidem hself htm,
      List.nil_append]

/-- Cancelling every observer of an accumulating batch that has never
flushed during the burst: the run emits no effects, the pending timer is
disarmed (the key's only armed timer is removed), and the group record is
deleted exactly when no running generations remain; otherwise the record
survives with an empty queue and its running entries intact. -/
theorem runCancels_general (k : String) (g : Nat) :
    ∀ (cs : List Nat) (s : DState) (t d : Nat) (B : List Timer)
      (rs : List (Nat × RunningSub)) (q : List Nat) (r : Request),
      alookup s.debounceInfo k =
        some
          { timeout := some t
            runningSubscriptions := rs
            queuedObservers := q
            currentGroupId := g
            lastRequest := some r } →
      q ≠ [] →
      s.armed = B ++ [Timer.mk t k d] →
      (∀ tm ∈ B, tm.id ≠ t) →
      (∀ o ∈ q, o ∈ cs) →
      ∃ s1, run s (cancelEvs k g cs) = some (s1, []) ∧
        s1.armed = B ∧
        s1.nextTimerId = s.nextTimerId ∧
        s1.nextSubId = s.nextSubId ∧
        (aerase rs g = [] → s1.debounceInfo = aerase s.debounceInfo k) ∧
        (aerase rs g ≠ [] →
          s1.debounceInfo =
            aset s.debounceInfo k
              { timeout := some t
                runningSubscriptions := aerase rs g
                queuedObservers := []
                currentGroupId := g
                lastRequest := some r }) := by
  intro cs
  induction cs with
  | nil =>
    intro s t d B rs q r hl hq harm hB hcov
    cases hql : q with
    | nil => exact absurd hql hq
    | cons a q2 =>
      rw [hql] at hcov
      exact absurd (hcov a (by simp)) (by simp)
  | cons c cs ih =>
    intro s t d B rs q r hl hq harm hB hcov
    rw [show cancelEvs k g (c :: cs) =
      Ev.cancelG k g c :: cancelEvs k g cs from rfl]
    by_cases hq' : q.filter (fun x => x ≠ c) = []
    · have huns := unsubscribe_pending_empty s k g c
        { timeout := some t
          runningSubscriptions := rs
          queuedObservers := q
          currentGroupId := g
          lastRequest := some r } hl rfl hq'
      by_cases hrs : aerase rs g = []
      · have hclean :
            cleanup
              { s with
                  debounceInfo :=
                    aset s.debounceInfo k
                      { timeout := some t
                        runningSubscriptions := rs
                        queuedObservers := []
                        currentGroupId := g
                        lastRequest := some r } } k g =
            { s with
                debounceInfo := aerase s.debounceInfo k
                armed := B } := by
          rw [cleanup_delete _ k g
            { timeout := some t
              runningSubscriptions := rs
              queuedObservers := []
              currentGroupId := g
              lastRequest := some r } (alookup_aset_self _ _ _) hrs rfl]
          rw [aerase_aset_self]
          rw [if_pos rfl]
          rw [show clearTimer s.armed (some t) =
            s.armed.filter (fun tm => tm.id ≠ t) from rfl]
          rw [harm, filter_ne_id_append_last B t k d hB]
        have hstepc : step s (Ev.cancelG k g c) =
            some ({ s with
                debounceInfo := aerase s.debounceInfo k
                armed := B }, []) := by
          have h1 : step s (Ev.cancelG k g c) =
              some (unsubscribe s k g c) := rfl
          rw [h1, huns, hclean]
        refine ⟨{ s with
            debounceInfo := aerase s.debounceInfo k
            armed := B }, ?_, rfl, rfl, rfl, fun _ => rfl,
          fun hx => absurd hrs hx⟩
        have habs2 : alookup
            ({ s with
                debounceInfo := aerase s.debounceInfo k
                armed := B }).debounceInfo k = none :=
          alookup_aerase_self _ _
        simp only [run, hstepc, runCancels_absent k g cs _ habs2,
          List.nil_append]
      · have hclean :
            cleanup
              { s with
                  debounceInfo :=
                    aset s.debounceInfo k
                      { timeout := some t
                        runningSubscriptions := rs
                        queuedObservers := []
                        currentGroupId := g
                        lastRequest := some r } } k g =
            { s with
                debounceInfo :=
                  aset s.debounceInfo k
                    { timeout := some t
                      runningSubscriptions := aerase rs g
                      queuedObservers := []
                      currentGroupId := g
                      lastRequest := some r }
                armed := B } := by
          rw [cleanup_keep _ k g
            { timeout := some t
              runningSubscriptions := rs
              queuedObservers := []
              currentGroupId := g
              lastRequest := some r } (alookup_aset_self _ _ _)
            (fun hx => hrs hx.1)]
          rw [aset_aset_self]
          rw [if_pos rfl]
          rw [show clearTimer s.armed (some t) =
            s.armed.filter (fun tm => tm.id ≠ t) from rfl]
          rw [harm, filter_ne_id_append_last B t k d hB]
        have hstepc : step s (Ev.cancelG k g c) =
            some ({ s with
                debounceInfo :=
                  aset s.debounceInfo k
                    { timeout := some t
                      runningSubscriptions := aerase rs g
                      queuedObservers := []
                      currentGroupId := g
                      lastRequest := some r }
                armed := B }, []) := by
          have h1 : step s (Ev.cancelG k g c) =
              some (unsubscribe s k g c) := rfl
          rw [h1, huns, hclean]
        have hdrain := runCancels_drained k g cs
          ({ s with
              debounceInfo :=
                aset s.debounceInfo k
                  { timeout := some t
                    runningSubscriptions := aerase rs g
                    queuedObservers := []
                    currentGroupId := g
                    lastRequest := some r }
              armed := B }) t (aerase rs g) r (alookup_aset_self _ _ _)
          hrs (aerase_idem rs g) (aset_aset_self _ _ _ _) hB
        refine ⟨{ s with
            debounceInfo :=
              aset s.debounceInfo k
                { timeout := some t
                  runningSubscriptions := aerase rs g
                  queuedObservers := []
                  currentGroupId := g
                  lastRequest := some r }
            armed := B }, ?_, rfl, rfl, rfl, fun hx => absurd hx hrs,
          fun _ => rfl⟩
        simp only [run, hstepc, hdrain, List.nil_append]
    · have huns := unsubscribe_pending_keep s k g c
        { timeout := some t
          runningSubscriptions := rs
          queuedObservers := q
          currentGroupId := g
          lastRequest := some r } hl rfl hq'
      have hstepc : step s (Ev.cancelG k g c) =
          some ({ s with
              debounceInfo :=
                aset s.debounceInfo k
                  { timeout := some t
                    runningSubscriptions := rs
                    queuedObservers := q.filter (fun x => x ≠ c)
                    currentGroupId := g
                    lastRequest := some r } }, []) := by
        have h1 : step s (Ev.cancelG k g c) =
            some (unsubscribe s k g c) := rfl
        rw [h1, huns]
      have hcov2 : ∀ o ∈ q.filter (fun x => x ≠ c), o ∈ cs := by
        intro o ho
        have hmem := List.mem_of_mem_filter ho
        have hne : o ≠ c := by
          have := List.of_mem_filter ho
          simpa using this
        have := hcov o hmem
        simp only [List.mem_cons] at this
        rcases this with h1 | h1
        · exact absurd h1 hne
        · exact h1
      obtain ⟨s1, hrun1, harm1, htid1, hsub1, hdel1, hkeep1⟩ :=
        ih ({ s with
            debounceInfo :=
              aset s.debounceInfo k
                { timeout := some t
                  runningSubscriptions := rs
                  queuedObservers := q.filter (fun x => x ≠ c)
                  currentGroupId := g
                  lastRequest := some r } }) t d B rs
          (q.filter (fun x => x ≠ c)) r (alookup_aset_self _ _ _) hq' harm
          hB hcov2
      refine ⟨s1, ?_, harm1, htid1, hsub1, ?_, ?_⟩
      · simp only [run, hstepc, hrun1, List.nil_append]
      · intro hx
        rw [hdel1 hx]
        exact aerase_aset_self _ _ _
      · intro hx
        rw [hkeep1 hx]
        exact aset_aset_self _ _ _ _

/-! ### Claim C2 -/

/-- C2: for any key with no pending batch (its group absent, or existing
with an empty queue and any set of in-flight running generations), if
every observer of the batch accumulated by a burst cancels before the
window elapses, no downstream call is ever made for that batch: the whole
run emits no effects, the last cancellation empties the queue and runs
cleanup, which disarms the pending timer; if no running generations
remain the group record is deleted, otherwise the record survives with an
empty queue and its running generations intact.  Afterwards no armed
timer for the key remains, so no later timer firing can produce a
downstream call for it. -/
theorem claim2_full_cancel_no_flush
    (s0 : DState) (k : String) (sb : Submission) (rest : List Submission)
    (cs : List Nat) (g0 : Nat) (rs0 : List (Nat × RunningSub))
    (hk : k ≠ "") (hfresh : timersOk s0)
    (hnok : ∀ tm ∈ s0.armed, tm.key ≠ k)
    (hnp : noPending s0 k)
    (hrs0 : rs0 =
      ((alookup s0.debounceInfo k).getD freshMetadata).runningSubscriptions)
    (hg0 : g0 =
      ((alookup s0.debounceInfo k).getD freshMetadata).currentGroupId)
    (hcov : ∀ o ∈ burstObs sb rest, o ∈ cs) :
    ∃ s1, run s0 (submitEvs k (sb :: rest) ++ cancelEvs k g0 cs) =
        some (s1, []) ∧
      (∀ tm ∈ s1.armed, tm.key ≠ k) ∧
      (∀ tid s2 effs, step s1 (Ev.fire tid) = some (s2, effs) →
        ∀ req sid, Effect.fwd k req sid ∉ effs) ∧
      (aerase rs0 g0 = [] → alookup s1.debounceInfo k = none) ∧
      (aerase rs0 g0 ≠ [] →
        ∃ dbi1, alookup s1.debounceInfo k = some dbi1 ∧
          dbi1.queuedObservers = [] ∧
          dbi1.runningSubscriptions = aerase rs0 g0 ∧
          dbi1.currentGroupId = g0) := by
  obtain ⟨B0, rs1, g1, henq, hB0, hrs1, hg1⟩ :=
    enqueueRequest_first s0 k sb.dt sb.req sb.obs hfresh hnok hnp
  have hrseq : rs1 = rs0 := by rw [hrs1, hrs0]
  have hgeq : g1 = g0 := by rw [hg1, hg0]
  subst hrseq
  subst hgeq
  set s1lit : DState :=
    { s0 with
        debounceInfo :=
          aset s0.debounceInfo k
            { timeout := some s0.nextTimerId
              runningSubscriptions := rs1
              queuedObservers := [sb.obs]
              currentGroupId := g1
              lastRequest := some sb.req }
        armed :=
          B0 ++ [Timer.mk s0.nextTimerId k (delayOf sb.dt s0.defaultDelay)]
        nextTimerId := s0.nextTimerId + 1 } with hs1def
  have hstep1 : step s0 (Ev.submit (some k) sb.dt sb.req sb.obs) =
      some (s1lit, []) := by
    rw [step_submit_keyed s0 k hk sb.dt sb.req sb.obs, henq]
  obtain ⟨s', t', d', B', hrun', hl', harm', hB', ht', hsub', htid', hdd'⟩ :=
    runBurst_shape k hk rest s1lit s0.nextTimerId
      (delayOf sb.dt s0.defaultDelay) B0 rs1 [sb.obs] g1 sb.req
      (by rw [hs1def]; exact alookup_aset_self _ _ _)
      (by rw [hs1def]) hB0 (by rw [hs1def])
  have hrun01 : run s0 (submitEvs k (sb :: rest)) = some (s', []) := by
    rw [show submitEvs k (sb :: rest) =
      Ev.submit (some k) sb.dt sb.req sb.obs :: submitEvs k rest from rfl]
    simp only [run, hstep1, hrun', List.nil_append]
  have hql : [sb.obs] ++ rest.map (fun x => x.obs) = burstObs sb rest := rfl
  rw [hql] at hl'
  have hBne : ∀ tm ∈ B', tm.id ≠ t' :=
    fun tm htm => Nat.ne_of_lt (hB' tm htm).1
  obtain ⟨s1, hrunC, harm1, -, -, hdel, hkeep⟩ :=
    runCancels_general k g1 cs s' t' d' B' rs1 (burstObs sb rest)
      (lastReq sb.req rest) hl' (by simp [burstObs]) harm' hBne hcov
  have htotal : run s0 (submitEvs k (sb :: rest) ++ cancelEvs k g1 cs) =
      some (s1, []) := by
    rw [run_append (submitEvs k (sb :: rest)) s0 s' [] (cancelEvs k g1 cs)
      hrun01, hrunC]
    rfl
  have hkeys1 : ∀ tm ∈ s1.armed, tm.key ≠ k := by
    intro tm htm
    rw [harm1] at htm
    exact (hB' tm htm).2
  refine ⟨s1, htotal, hkeys1, ?_, ?_, ?_⟩
  · intro tid s2 effs hstep2 req sid
    rcases hfind2 : s1.armed.find? (fun tm => tm.id = tid) with _ | tm2
    · have hcomp : step s1 (Ev.fire tid) = some (s1, []) := by
        simp [step, hfind2]
      rw [hcomp] at hstep2
      obtain ⟨-, he⟩ := some_pair_eq hstep2
      rw [← he]
      simp
    · have hmem2 : tm2 ∈ s1.armed := List.mem_of_find?_eq_some hfind2
      have hkey2 : tm2.key ≠ k := hkeys1 tm2 hmem2
      have hcomp : step s1 (Ev.fire tid) =
          flush { s1 with armed := s1.armed.filter (fun x => x.id ≠ tid) }
            tm2.key := by
        simp only [step, hfind2]
      rw [hcomp] at hstep2
      rcases flush_effects_key _ _ _ _ hstep2 with he | ⟨req2, sid2, he⟩
      · rw [he]
        simp
      · rw [he]
        intro hmemf
        simp only [List.mem_singleton] at hmemf
        injection hmemf with hkeq
        exact hkey2 hkeq.symm
  · intro hx
    rw [hdel hx]
    exact alookup_aerase_self _ _
  · intro hx
    refine ⟨{ timeout := some t'
              runningSubscriptions := aerase rs1 g1
              queuedObservers := []
              currentGroupId := g1
              lastRequest := some (lastReq sb.req rest) }, ?_, rfl, rfl, rfl⟩
    rw [hkeep hx]
    exact alookup_aset_self _ _ _

/-- C2 witness: both observers of a two-submission burst cancel while a
previous generation (generation 0, downstream subscription 3, observer 7)
is still in flight; the group record survives with an empty queue and
that running generation intact, and no downstream call is made for the
batch. -/
theorem claim2_full_cancel_no_flush_witness :
    ∃ s1, run
        { debounceInfo :=
            [("k",
              { timeout := some 0
                runningSubscriptions := [(0, ⟨[7], 3, [7]⟩)]
                queuedObservers := []
                currentGroupId := 1
                lastRequest := some ⟨9, 9⟩ })]
          armed := []
          nextTimerId := 1
          nextSubId := 4
          activeDirect := []
          defaultDelay := 500 }
        (submitEvs "k" [⟨none, ⟨1, 1⟩, 10⟩, ⟨none, ⟨2, 2⟩, 11⟩] ++
          cancelEvs "k" 1 [10, 11]) = some (s1, []) ∧
      (∀ tm ∈ s1.armed, tm.key ≠ "k") ∧
      (∀ tid s2 effs, step s1 (Ev.fire tid) = some (s2, effs) →
        ∀ req sid, Effect.fwd "k" req sid ∉ effs) ∧
      (aerase [(0, (⟨[7], 3, [7]⟩ : RunningSub))] 1 = [] →
        alookup s1.debounceInfo "k" = none) ∧
      (aerase [(0, (⟨[7], 3, [7]⟩ : RunningSub))] 1 ≠ [] →
        ∃ dbi1, alookup s1.debounceInfo "k" = some dbi1 ∧
          dbi1.queuedObservers = [] ∧
          dbi1.runningSubscriptions =
            aerase [(0, (⟨[7], 3, [7]⟩ : RunningSub))] 1 ∧
          dbi1.currentGroupId = 1) :=
  claim2_full_cancel_no_flush
    { debounceInfo :=
        [("k",
          { timeout := some 0
            runningSubscriptions := [(0, ⟨[7], 3, [7]⟩)]
            queuedObservers := []
            currentGroupId := 1
            lastRequest := some ⟨9, 9⟩ })]
      armed := []
      nextTimerId := 1
      nextSubId := 4
      activeDirect := []
      defaultDelay := 500 } "k" ⟨none, ⟨1, 1⟩, 10⟩ [⟨none, ⟨2, 2⟩, 11⟩]
    [10, 11] 1 [(0, ⟨[7], 3, [7]⟩)] (by decide)
    (fun tm htm => absurd htm (by simp))
    (fun tm htm => absurd htm (by simp))
    (fun dbi h => by
      simp only [alookup, if_true] at h
      injection h with h1
      rw [← h1])
    rfl rfl (by decide)
